import Mathlib

/-!
Verification development for the chattwelve request pipeline.

This file gives a shallow embedding of the Python source of the
repository (session gate, rate limiting, query interpreter, cache key
derivation, chat orchestrator and its response formatters) as executable
Lean definitions, followed by theorems settling the frozen claims about
the specification.

Conventions of the embedding:
* Python dicts/lists/strings/numbers/None are modelled by the inductive
  type `Val`; Python ints and floats are both rationals (no claim in
  scope depends on binary floating-point rounding).
* Timestamps are natural numbers counting microseconds since an epoch,
  matching `datetime` resolution; the clock is modelled as monotone.
* Effectful calls (database, cache, upstream JSON-RPC) are modelled by
  an explicit environment `Env` of pure oracles, and the orchestrator
  returns the list of effects it performed alongside its result.
* Exceptions are modelled with `Except String`.
-/

namespace ChatTwelve

-- Batteries marks rational arithmetic `@[irreducible]`, which blocks the
-- kernel evaluation that concrete witnesses rely on; restore the default
-- reducibility for this development.
set_option allowUnsafeReducibility true
attribute [local semireducible] Rat.mul Rat.add Rat.sub Rat.inv
  Rat.ofScientific

deriving instance DecidableEq for Except

/-- A JSON-like runtime value standing for the Python values that flow
through the pipeline. Python `int` and `float` are both `vNum`. -/
inductive Val where
  | vNull : Val
  | vBool : Bool → Val
  | vNum : ℚ → Val
  | vStr : String → Val
  | vList : List Val → Val
  | vDict : List (String × Val) → Val

/-- Python truthiness `bool(x)`. -/
def pyTruthy : Val → Bool
  | .vNull => false
  | .vBool b => b
  | .vNum q => if q = 0 then false else true
  | .vStr s => !s.isEmpty
  | .vList xs => !xs.isEmpty
  | .vDict fs => !fs.isEmpty

/-- Python `d.get(key)`: `None` when the key is missing. The pipeline only
applies it to dict payloads; on non-dicts it yields `None`. -/
def dictGet : Val → String → Val
  | .vDict fs, k =>
    match fs.lookup k with
    | some v => v
    | none => .vNull
  | _, _ => .vNull

/-- Python `d.get(key, default)`. -/
def dictGetD (d : Val) (k : String) (dflt : Val) : Val :=
  match d with
  | .vDict fs =>
    match fs.lookup k with
    | some v => v
    | none => dflt
  | _ => dflt

/-- Python `a or b`: `a` when truthy, otherwise `b`. -/
def pyOr (a b : Val) : Val := if pyTruthy a then a else b

/-- Python dict assignment `d[k] = v`: replace the binding if the key is
present, otherwise append it. -/
def dictSet : List (String × Val) → String → Val → List (String × Val)
  | [], k, v => [(k, v)]
  | (k', v') :: t, k, v =>
    if k' = k then (k, v) :: t else (k', v') :: dictSet t k v

/-- ASCII decimal digit test. -/
def isDigitChar (c : Char) : Bool := '0' ≤ c && c ≤ '9'

/-- Numeric value of an ASCII digit. -/
def digitVal (c : Char) : Nat := c.toNat - 48

/-- Read a digit run as a natural number. -/
def digitsToNat (l : List Char) : Nat :=
  l.foldl (fun a c => a * 10 + digitVal c) 0

/-- Lowercase ASCII letter test. -/
def isLowerAlpha (c : Char) : Bool := 'a' ≤ c && c ≤ 'z'

/-- Uppercase ASCII letter test. -/
def isUpperAlpha (c : Char) : Bool := 'A' ≤ c && c ≤ 'Z'

/-- Regex word character (`\w`): ASCII letter, digit or underscore. -/
def isWordChar (c : Char) : Bool :=
  isLowerAlpha c || isUpperAlpha c || isDigitChar c || c = '_'

/-- Regex whitespace (`\s`), restricted to the ASCII whitespace that can
occur in queries. -/
def isSpaceChar (c : Char) : Bool :=
  c = ' ' || c = '\t' || c = '\n' || c = '\r'

/-- ASCII lowercase of one character (`str.lower`). -/
def charLower (c : Char) : Char :=
  if isUpperAlpha c then Char.ofNat (c.toNat + 32) else c

/-- ASCII uppercase of one character (`str.upper`). -/
def charUpper (c : Char) : Char :=
  if isLowerAlpha c then Char.ofNat (c.toNat - 32) else c

/-- Python `s.lower()` over ASCII. -/
def pyLower (s : String) : String := String.mk (s.data.map charLower)

/-- Python `s.upper()` over ASCII. -/
def pyUpper (s : String) : String := String.mk (s.data.map charUpper)

/-- Does `pat` occur at the head of `hay`? -/
def listStarts : List Char → List Char → Bool
  | [], _ => true
  | _ :: _, [] => false
  | p :: ps, h :: hs => p = h && listStarts ps hs

/-- Substring containment: Python `pat in hay` on strings. -/
def containsSub (hay pat : List Char) : Bool :=
  match hay with
  | [] => pat.isEmpty
  | _ :: t => listStarts pat hay || containsSub t pat

/-- Python `needle in hay` for strings. -/
def strIn (needle hay : String) : Bool := containsSub hay.data needle.data

/-- Does any of the phrases occur as a substring? -/
def containsAny (hay : List Char) (phrases : List String) : Bool :=
  phrases.any (fun p => containsSub hay p.data)

/-- Helper for `wordRuns`: accumulate the current (reversed) run. -/
def wordRunsAux : List Char → List Char → List (List Char)
  | cur, [] => if cur.isEmpty then [] else [cur.reverse]
  | cur, c :: t =>
    if isWordChar c then wordRunsAux (c :: cur) t
    else if cur.isEmpty then wordRunsAux [] t
    else cur.reverse :: wordRunsAux [] t

/-- Maximal runs of word characters, in order of occurrence. -/
def wordRuns (l : List Char) : List (List Char) := wordRunsAux [] l

/-- `re.findall(r'\b[A-Z]{2,5}\b', l)`: the maximal word runs that
consist of 2 to 5 uppercase letters. -/
def tickerWords (l : List Char) : List String :=
  (wordRuns l).filterMap fun w =>
    if w.all isUpperAlpha && 2 ≤ w.length && w.length ≤ 5 then
      some (String.mk w)
    else none

/-- Helper for `occursWord`: scan with the previous character at hand. -/
def occursWordAux (pat : List Char) : Option Char → List Char → Bool
  | prev, [] =>
    -- an empty remainder can only match the empty pattern
    pat.isEmpty &&
      (match prev with
       | none => true
       | some p => !isWordChar p)
  | prev, c :: t =>
    let boundaryBefore :=
      match prev with
      | none => true
      | some p => !isWordChar p
    let boundaryAfter :=
      match (c :: t).drop pat.length with
      | [] => true
      | d :: _ => !isWordChar d
    (boundaryBefore && listStarts pat (c :: t) && boundaryAfter) ||
      occursWordAux pat (some c) t

/-- `re.search(r'\b<pat>\b', hay)` for a literal `pat` that starts and
ends with a word character (all the patterns used by the source do). -/
def occursWord (pat : String) (hay : List Char) : Bool :=
  occursWordAux pat.data none hay

/-- One attempt of `re.search(r'last\s+\d+\s+(?:days?|weeks?|months?|hours?)')`
anchored at the head of the list. -/
def lastNUnitsAt (l : List Char) : Bool :=
  if listStarts "last".data l then
    let r := l.drop 4
    let sp1 := r.takeWhile isSpaceChar
    let r := r.dropWhile isSpaceChar
    let ds := r.takeWhile isDigitChar
    let r := r.dropWhile isDigitChar
    let sp2 := r.takeWhile isSpaceChar
    let r := r.dropWhile isSpaceChar
    !sp1.isEmpty && !ds.isEmpty && !sp2.isEmpty &&
      (listStarts "day".data r || listStarts "week".data r ||
       listStarts "month".data r || listStarts "hour".data r)
  else false

/-- `re.search(r'last\s+\d+\s+(?:days?|weeks?|months?|hours?)', l)` as used
by `_detect_intent` to recognise historical queries. -/
def matchLastN : List Char → Bool
  | [] => false
  | c :: t => lastNUnitsAt (c :: t) || matchLastN t

/-- Try `(\d+)[\s-]*(?:period|day|days)` anchored at the head; the head must
be the first digit of a run. Returns the captured digits. -/
def timePeriodP1At (l : List Char) : Option Nat :=
  let ds := l.takeWhile isDigitChar
  let r := l.dropWhile isDigitChar
  let r := r.dropWhile (fun c => isSpaceChar c || c = '-')
  if !ds.isEmpty && (listStarts "period".data r || listStarts "day".data r) then
    some (digitsToNat ds)
  else none

/-- Try `period\s*of\s*(\d+)` anchored at the head. -/
def timePeriodP2At (l : List Char) : Option Nat :=
  if listStarts "period".data l then
    let r := (l.drop 6).dropWhile isSpaceChar
    if listStarts "of".data r then
      let r := (r.drop 2).dropWhile isSpaceChar
      let ds := r.takeWhile isDigitChar
      if ds.isEmpty then none else some (digitsToNat ds)
    else none
  else none

/-- After an optional plural `s`, optional spaces, is the continuation ok?
Implements the backtracking of a greedy `s?` followed by `\s*` and `k`. -/
def unitTail (k : String) (r : List Char) : Bool :=
  let chk := fun (x : List Char) => listStarts k.data (x.dropWhile isSpaceChar)
  match r with
  | 's' :: t => chk t || chk r
  | _ => chk r

/-- Try `(\d+)[\s-]*(?:day|week)\s*(?:sma|ema|rsi|macd)` anchored at the
head (head must be the first digit of a run). -/
def timePeriodP3At (l : List Char) : Option Nat :=
  let ds := l.takeWhile isDigitChar
  let r := l.dropWhile isDigitChar
  let r := r.dropWhile (fun c => isSpaceChar c || c = '-')
  let afterUnit : Option (List Char) :=
    if listStarts "day".data r then some (r.drop 3)
    else if listStarts "week".data r then some (r.drop 4)
    else none
  match afterUnit with
  | none => none
  | some r' =>
    let r'' := r'.dropWhile isSpaceChar
    if !ds.isEmpty &&
        (listStarts "sma".data r'' || listStarts "ema".data r'' ||
         listStarts "rsi".data r'' || listStarts "macd".data r'') then
      some (digitsToNat ds)
    else none

/-- Scan a list for the leftmost success of an anchored matcher, skipping
positions inside a digit run when `runStart` is set (a `\d+` group can
only produce its full run, so matches are anchored at run starts). -/
def scanFirst (f : List Char → Option Nat) (runStart : Bool) :
    Option Char → List Char → Option Nat
  | _, [] => none
  | prev, c :: t =>
    let anchored :=
      !runStart ||
        (isDigitChar c &&
          (match prev with
           | none => true
           | some p => !isDigitChar p))
    match if anchored then f (c :: t) else none with
    | some n => some n
    | none => scanFirst f runStart (some c) t

/-- `_extract_time_period`: the three patterns tried in order. Returns the
extracted integer or `none`. -/
def extractTimePeriod (q : List Char) : Option Nat :=
  match scanFirst timePeriodP1At true none q with
  | some n => some n
  | none =>
    match scanFirst timePeriodP2At false none q with
    | some n => some n
    | none => scanFirst timePeriodP3At true none q

/-- Try `last\s*(\d+)\s*(?:days?|weeks?|candles?|points?|bars?)` anchored
at the head. -/
def outputsizeP1At (l : List Char) : Option Nat :=
  if listStarts "last".data l then
    let r := (l.drop 4).dropWhile isSpaceChar
    let ds := r.takeWhile isDigitChar
    let r := (r.dropWhile isDigitChar).dropWhile isSpaceChar
    if !ds.isEmpty &&
        (listStarts "day".data r || listStarts "week".data r ||
         listStarts "candle".data r || listStarts "point".data r ||
         listStarts "bar".data r) then
      some (digitsToNat ds)
    else none
  else none

/-- Try `(\d+)\s*(?:days?|weeks?|candles?|points?|bars?)\s*of` anchored at
the head (head must begin a digit run). -/
def outputsizeP2At (l : List Char) : Option Nat :=
  let ds := l.takeWhile isDigitChar
  let r := (l.dropWhile isDigitChar).dropWhile isSpaceChar
  let afterUnit : Option (List Char) :=
    if listStarts "day".data r then some (r.drop 3)
    else if listStarts "week".data r then some (r.drop 4)
    else if listStarts "candle".data r then some (r.drop 6)
    else if listStarts "point".data r then some (r.drop 5)
    else if listStarts "bar".data r then some (r.drop 3)
    else none
  match afterUnit with
  | none => none
  | some r' =>
    if !ds.isEmpty && unitTail "of" r' then some (digitsToNat ds) else none

/-- `_extract_outputsize`: two patterns tried in order, result capped at
5000 by `min`. -/
def extractOutputsize (q : List Char) : Option Nat :=
  match scanFirst outputsizeP1At false none q with
  | some n => some (min n 5000)
  | none =>
    match scanFirst outputsizeP2At true none q with
    | some n => some (min n 5000)
    | none => none

/-! ### Query processor tables (`QueryProcessor` class constants) -/

/-- `FOREX_PAIRS`. -/
def forexPairs : List String :=
  ["EUR/USD", "GBP/USD", "USD/JPY", "USD/CHF", "AUD/USD", "USD/CAD",
   "NZD/USD", "EUR/GBP", "EUR/JPY", "GBP/JPY"]

/-- `METALS` (insertion order of the dict). -/
def metals : List (String × String) :=
  [("gold", "XAU/USD"), ("silver", "XAG/USD"),
   ("platinum", "XPT/USD"), ("palladium", "XPD/USD")]

/-- `CRYPTO`. -/
def crypto : List (String × String) :=
  [("bitcoin", "BTC/USD"), ("btc", "BTC/USD"), ("ethereum", "ETH/USD"),
   ("eth", "ETH/USD"), ("litecoin", "LTC/USD"), ("ltc", "LTC/USD")]

/-- `COMMON_STOCKS`. -/
def commonStocks : List String :=
  ["AAPL", "MSFT", "GOOGL", "GOOG", "AMZN", "META", "NVDA", "TSLA",
   "JPM", "V", "MA", "UNH", "JNJ", "WMT", "PG", "XOM", "CVX", "BAC"]

/-- `STOCK_NAMES`. -/
def stockNames : List (String × String) :=
  [("apple", "AAPL"), ("microsoft", "MSFT"), ("google", "GOOGL"),
   ("alphabet", "GOOGL"), ("amazon", "AMZN"), ("meta", "META"),
   ("facebook", "META"), ("nvidia", "NVDA"), ("tesla", "TSLA"),
   ("jpmorgan", "JPM"), ("jp morgan", "JPM"), ("walmart", "WMT"),
   ("johnson", "JNJ"), ("exxon", "XOM"), ("chevron", "CVX")]

/-- `INDICATORS` (insertion order of the dict). -/
def indicatorTable : List (String × String) :=
  [("sma", "sma"), ("simple moving average", "sma"), ("moving average", "sma"),
   ("ema", "ema"), ("exponential moving average", "ema"),
   ("rsi", "rsi"), ("relative strength index", "rsi"),
   ("macd", "macd"), ("moving average convergence divergence", "macd"),
   ("bollinger bands", "bbands"), ("bbands", "bbands"),
   ("stochastic", "stoch"), ("stoch", "stoch"),
   ("adx", "adx"), ("average directional index", "adx"),
   ("atr", "atr"), ("average true range", "atr"),
   ("cci", "cci"), ("commodity channel index", "cci"),
   ("obv", "obv"), ("on balance volume", "obv"),
   ("momentum", "mom"), ("mom", "mom"),
   ("roc", "roc"), ("rate of change", "roc"),
   ("williams %r", "willr"), ("willr", "willr")]

/-- `INTERVALS` (insertion order of the dict). -/
def intervalTable : List (String × String) :=
  [("1 minute", "1min"), ("1min", "1min"), ("5 minute", "5min"),
   ("5min", "5min"), ("15 minute", "15min"), ("15min", "15min"),
   ("30 minute", "30min"), ("30min", "30min"), ("1 hour", "1h"),
   ("1h", "1h"), ("hourly", "1h"), ("4 hour", "4h"), ("4h", "4h"),
   ("daily", "1day"), ("1 day", "1day"), ("1day", "1day"), ("day", "1day"),
   ("weekly", "1week"), ("1 week", "1week"), ("1week", "1week"),
   ("week", "1week"), ("monthly", "1month"), ("1 month", "1month"),
   ("1month", "1month"), ("month", "1month")]

/-- `EXCLUDED_WORDS`. -/
def excludedWords : List String :=
  ["THE", "IS", "OF", "TO", "FOR", "AT", "BY", "IN", "ON", "AN", "IT",
   "WHAT", "HOW", "SHOW", "GET", "GIVE", "ME", "AND", "OR", "WITH",
   "PRICE", "COST", "WORTH", "VALUE", "RATE", "DATA", "QUOTE",
   "LAST", "PAST", "TODAY", "NOW", "CURRENT", "DAILY", "WEEKLY",
   "SMA", "EMA", "RSI", "MACD", "ADX", "ATR", "CCI", "OBV", "ROC",
   "USD", "EUR", "GBP", "JPY", "CHF", "AUD", "CAD", "NZD",
   "DAY", "WEEK", "MONTH", "YEAR", "HOUR", "MIN",
   "CAN", "YOU", "TELL", "ABOUT", "THIS", "THAT", "FROM",
   "GOLD", "SILVER", "PLATINUM", "BITCOIN", "ETHEREUM",
   "JOKE", "FUNNY", "HELP", "HELLO", "HI", "BYE", "THANKS", "PLEASE",
   "STOCK", "STOCKS", "MARKET", "TRADING", "TRADE", "TRADES",
   "INFO", "KNOW", "WANT", "NEED", "LIKE"]

/-- `FINANCIAL_INTENT_PHRASES`. -/
def financialIntentPhrases : List String :=
  ["price", "quote", "cost", "worth", "value", "trading at",
   "buy", "sell", "invest", "stock", "share", "ticker",
   "chart", "history", "historical", "candle", "ohlc",
   "indicator", "sma", "ema", "rsi", "macd"]

/-! ### Intent detection (`QueryProcessor._detect_intent`) -/

/-- The closed set of intents (`QueryIntent` enum). -/
inductive QueryIntent where
  | price
  | quote
  | historical
  | indicator
  | conversion
  | comparison
  | commoditiesList
  | unknown
deriving DecidableEq, Repr

/-- The `.value` string of an intent. -/
def intentValue : QueryIntent → String
  | .price => "price"
  | .quote => "quote"
  | .historical => "historical"
  | .indicator => "indicator"
  | .conversion => "conversion"
  | .comparison => "comparison"
  | .commoditiesList => "commodities_list"
  | .unknown => "unknown"

/-- The commodities-list phrases of `_detect_intent`. -/
def commoditiesPhrases : List String :=
  ["list commodities", "available commodities", "show commodities"]

/-- The conversion phrases of `_detect_intent`. -/
def conversionPhrases : List String :=
  ["convert", "exchange", "to usd", "to eur", "to gbp", "how much is"]

/-- The historical phrases of `_detect_intent`. -/
def historicalPhrases : List String :=
  ["historical", "history", "past", "chart", "time series", "candles",
   "over time", "last week", "last month", "last year", "trend"]

/-- The quote phrases of `_detect_intent`. -/
def quotePhrases : List String :=
  ["quote", "detailed", "52 week", "volume", "high low", "open close", "ohlc"]

/-- The comparison phrases of `_detect_intent`. -/
def comparisonPhrases : List String :=
  ["compare", "vs", "versus", "against", "difference between"]

/-- The price phrases of `_detect_intent`. -/
def pricePhrases : List String :=
  ["price", "cost", "worth", "value", "trading at", "what is", "how much"]

/-- `QueryProcessor._detect_intent`, applied to the lowercased query. -/
def detectIntent (q : String) : QueryIntent :=
  let l := q.data
  if containsAny l commoditiesPhrases then .commoditiesList
  else if containsAny l conversionPhrases then .conversion
  else if (indicatorTable.map Prod.fst).any (fun k => containsSub l k.data) then
    .indicator
  else if containsAny l historicalPhrases then .historical
  else if matchLastN l then .historical
  else if containsAny l quotePhrases then .quote
  else if containsAny l comparisonPhrases then .comparison
  else if containsAny l pricePhrases then .price
  else .price

/-! ### Symbol extraction (`QueryProcessor._extract_symbols`) -/

/-- Append a symbol unless it is already present (`if s not in symbols`). -/
def addSym (acc : List String) (s : String) : List String :=
  if acc.contains s then acc else acc ++ [s]

/-- Try `\b([A-Z]{2,6}/[A-Z]{2,6})\b` anchored at the head: the maximal
alphabetic run here (2 to 6 uppercase letters, ended by the slash),
a slash, then a maximal alphabetic run of 2 to 6 letters ended by a
non-word character or the end. Returns the pair, the last consumed
character and the remainder. -/
def tryPairAt (l : List Char) : Option (String × Char × List Char) :=
  let a := l.takeWhile isUpperAlpha
  if 2 ≤ a.length && a.length ≤ 6 then
    match l.drop a.length with
    | '/' :: r =>
      let b := r.takeWhile isUpperAlpha
      if 2 ≤ b.length && b.length ≤ 6 then
        let rest := r.drop b.length
        let ok :=
          match rest with
          | [] => true
          | d :: _ => !isWordChar d
        if ok then
          some (String.mk (a ++ '/' :: b), b.getLastD 'A', rest)
        else none
      else none
    | _ => none
  else none

/-- Non-overlapping scan for `re.findall(r'\b([A-Z]{2,6}/[A-Z]{2,6})\b')`,
fuelled by the input length. -/
def pairsLoop : Nat → Option Char → List Char → List String
  | 0, _, _ => []
  | _, _, [] => []
  | fuel + 1, prev, c :: t =>
    let boundary :=
      match prev with
      | none => true
      | some p => !isWordChar p
    if boundary then
      match tryPairAt (c :: t) with
      | some (s, lastC, rest) => s :: pairsLoop fuel (some lastC) rest
      | none => pairsLoop fuel (some c) t
    else pairsLoop fuel (some c) t

/-- `re.findall(r'\b([A-Z]{2,6}/[A-Z]{2,6})\b', l)`. -/
def explicitPairs (l : List Char) : List String :=
  pairsLoop l.length none l

/-- `QueryProcessor._extract_symbols`. -/
def extractSymbols (query : String) : List String :=
  let ql := (pyLower query).data
  let qu := (pyUpper query).data
  -- metals, crypto and company names by substring of the lowercased query
  let symbols := metals.foldl
    (fun acc (p : String × String) =>
      if containsSub ql p.1.data then addSym acc p.2 else acc) []
  let symbols := crypto.foldl
    (fun acc (p : String × String) =>
      if containsSub ql p.1.data then addSym acc p.2 else acc) symbols
  let symbols := stockNames.foldl
    (fun acc (p : String × String) =>
      if containsSub ql p.1.data then addSym acc p.2 else acc) symbols
  -- forex pairs, slashed or unslashed, by substring of the uppercased query
  let symbols := forexPairs.foldl
    (fun acc p =>
      if containsSub qu p.data ||
          containsSub qu (p.data.filter (fun c => c ≠ '/')) then
        addSym acc p
      else acc) symbols
  -- known stock tickers among the uppercase 2-5 letter words
  let words := tickerWords qu
  let symbols := words.foldl
    (fun acc w =>
      if commonStocks.contains w && !excludedWords.contains w then
        addSym acc w
      else acc) symbols
  -- speculative fallback ticker, only under financial intent
  let symbols :=
    if symbols.isEmpty && containsAny ql financialIntentPhrases then
      match words.find? (fun w => !excludedWords.contains w && 2 ≤ w.length) with
      | some w => symbols ++ [w]
      | none => symbols
    else symbols
  -- explicit pair syntax
  explicitPairs qu |>.foldl addSym symbols

/-! ### Remaining extractors and `parse` -/

/-- `QueryProcessor._extract_interval`: first phrase match in table order. -/
def extractInterval (q : List Char) : Option String :=
  intervalTable.findSome? fun p =>
    if containsSub q p.1.data then some p.2 else none

/-- `QueryProcessor._extract_indicator`: first phrase match in table order. -/
def extractIndicator (q : List Char) : Option String :=
  indicatorTable.findSome? fun p =>
    if containsSub q p.1.data then some p.2 else none

/-- Python `str.split()`: maximal runs of non-whitespace. -/
def splitWsAux : List Char → List Char → List String
  | cur, [] => if cur.isEmpty then [] else [String.mk cur.reverse]
  | cur, c :: t =>
    if isSpaceChar c then
      if cur.isEmpty then splitWsAux [] t
      else String.mk cur.reverse :: splitWsAux [] t
    else splitWsAux (c :: cur) t

/-- Python `str.split()`. -/
def splitWs (l : List Char) : List String := splitWsAux [] l

/-- Python `word.lower().rstrip("s")`. -/
def lowerRstripS (w : String) : String :=
  let l := w.data.map charLower
  String.mk (l.reverse.dropWhile (fun c => c = 's')).reverse

/-- The `currency_map` of `_extract_conversion`. -/
def currencyMap : List (String × String) :=
  [("dollar", "USD"), ("dollars", "USD"), ("usd", "USD"),
   ("euro", "EUR"), ("euros", "EUR"), ("eur", "EUR"),
   ("pound", "GBP"), ("pounds", "GBP"), ("gbp", "GBP"),
   ("yen", "JPY"), ("jpy", "JPY"),
   ("franc", "CHF"), ("francs", "CHF"), ("chf", "CHF")]

/-- The explicit currency codes of the `\b(USD|EUR|GBP|JPY|CHF|AUD|CAD|NZD)\b`
regex. -/
def currencyCodes : List String :=
  ["USD", "EUR", "GBP", "JPY", "CHF", "AUD", "CAD", "NZD"]

/-- `re.findall` of the currency-code regex: the word runs that are exactly
one of the codes, in order of occurrence. -/
def currencyCodesIn (l : List Char) : List String :=
  (wordRuns l).filterMap fun w =>
    let s := String.mk w
    if currencyCodes.contains s then some s else none

/-- First match of `(\d+(?:\.\d+)?)`: the first digit run, with fractional
digits when a dot with at least one digit follows, read as a rational. -/
def firstNumber : List Char → Option ℚ
  | [] => none
  | c :: t =>
    if isDigitChar c then
      let l := c :: t
      let ds := l.takeWhile isDigitChar
      let r := l.dropWhile isDigitChar
      let fs :=
        match r with
        | '.' :: t' => t'.takeWhile isDigitChar
        | _ => []
      some ((digitsToNat ds : ℚ) + (digitsToNat fs : ℚ) / (10 : ℚ) ^ fs.length)
    else firstNumber t

/-- `QueryProcessor._extract_conversion`, applied to the lowercased
query. Returns `(from_currency, to_currency, amount)`. -/
def extractConversion (q : List Char) :
    Option String × Option String × Option ℚ :=
  let amount := firstNumber q
  -- word-map pass: the first hit becomes `from`, every later hit
  -- overwrites `to`
  let fromTo := (splitWs q).foldl
    (fun (acc : Option String × Option String) w =>
      match currencyMap.lookup (lowerRstripS w) with
      | some v =>
        match acc.1 with
        | none => (some v, acc.2)
        | some _ => (acc.1, some v)
      | none => acc) (none, none)
  -- explicit uppercase codes override
  let codes := currencyCodesIn (q.map charUpper)
  match codes with
  | c1 :: c2 :: _ => (some c1, some c2, amount)
  | [c1] =>
    match fromTo.1 with
    | none => (some c1, fromTo.2, amount)
    | some f => (some f, fromTo.2, amount)
  | [] => (fromTo.1, fromTo.2, amount)

/-! ### Follow-up resolution and `parse` -/

/-- One entry of the session context list, with the fields written by
`ChatService._update_session_context`. -/
structure CtxEntry where
  query : String
  symbols : List String
  intentVal : String
  indicator : Option String
  interval : String
  timestamp : String
deriving DecidableEq, Repr

/-- Does the query match one of the follow-up indicator regexes of
`_extract_symbols_from_context`? (`\bits?\b` is `it` or `its` as a word.) -/
def isFollowUp (q : String) : Bool :=
  let l := q.data
  occursWord "it" l || occursWord "its" l || occursWord "that" l ||
    occursWord "the same" l || occursWord "this" l ||
    occursWord "same stock" l || occursWord "same symbol" l ||
    occursWord "and what about" l || occursWord "how about" l ||
    occursWord "what about" l || occursWord "also" l || occursWord "too" l

/-- The `for entry in reversed(context)` walk: symbols of the first entry
with a non-empty symbol list. -/
def walkCtx : List CtxEntry → List String
  | [] => []
  | e :: t => if e.symbols.isEmpty then walkCtx t else e.symbols

/-- `QueryProcessor._extract_symbols_from_context`, applied to the
lowercased query. -/
def extractSymbolsFromContext (q : String) (ctx : List CtxEntry) :
    List String :=
  if isFollowUp q then walkCtx ctx.reverse else []

/-- The record produced by the interpreter (`ParsedQuery`). -/
structure ParsedQuery where
  intent : QueryIntent
  symbols : List String
  interval : String
  indicator : Option String
  timePeriod : Nat
  outputsize : Nat
  fromCurrency : Option String
  toCurrency : Option String
  amount : Option ℚ
  rawQuery : String
deriving DecidableEq, Repr

/-- `QueryProcessor.parse`. The `x or default` idioms of the source are
kept: a `None` (or zero) extraction falls back to the default. -/
def parse (query : String) (ctx : List CtxEntry) : ParsedQuery :=
  let ql := pyLower query
  let intent := detectIntent ql
  let symbols := extractSymbols query
  let interval := extractInterval ql.data
  let indicator := extractIndicator ql.data
  let timePeriod := extractTimePeriod ql.data
  let conv := extractConversion ql.data
  let outputsize := extractOutputsize ql.data
  let symbols :=
    if symbols.isEmpty && !ctx.isEmpty then
      extractSymbolsFromContext ql ctx
    else symbols
  { intent := intent
    symbols := symbols
    interval :=
      match interval with
      | some i => if i.isEmpty then "1day" else i
      | none => "1day"
    indicator := indicator
    timePeriod :=
      match timePeriod with
      | some n => if n = 0 then 14 else n
      | none => 14
    outputsize :=
      match outputsize with
      | some n => if n = 0 then 30 else n
      | none => 30
    fromCurrency := conv.1
    toCurrency := conv.2.1
    amount := conv.2.2
    rawQuery := query }

/-! ### Session model and the rate-limit counter
(`src/database/session_repo.py`) -/

/-- Microseconds per second; timestamps are in microseconds, matching
`datetime` resolution. -/
def MICROS : Nat := 1000000

/-- The session row, with the fields the pipeline reads or writes
(`user_id` and `metadata` are never consulted by the code under claim
and are omitted). -/
structure Session where
  createdAt : Nat
  lastActivity : Nat
  context : List CtxEntry
  requestCount : Nat
  requestWindowStart : Nat
deriving DecidableEq, Repr

/-- `SessionRepository.is_expired`:
`(now - last_activity) >= timedelta(minutes=SESSION_TIMEOUT_MINUTES)`.
The clock is modelled as monotone (`Nat` subtraction truncates at zero,
as the negative time difference of a clock regression would compare). -/
def isExpired (timeoutMinutes : Nat) (now : Nat) (s : Session) : Bool :=
  timeoutMinutes * 60 * MICROS ≤ now - s.lastActivity

/-- `SessionRepository.increment_request_count` (also `consume_quota` in
the specification): resets the window when it has elapsed, else adds one;
writes the new counter, window start and `last_activity = now`; returns
the new session row, the new count and
`max(0, RATE_LIMIT_WINDOW - int(time_in_window))`. -/
def incrementRequestCount (s : Session) (now windowSeconds : Nat) :
    Session × Nat × Nat :=
  let reset := windowSeconds * MICROS ≤ now - s.requestWindowStart
  let newCount := if reset then 1 else s.requestCount + 1
  let newWindowStart := if reset then now else s.requestWindowStart
  let s' := { s with
    requestCount := newCount
    requestWindowStart := newWindowStart
    lastActivity := now }
  let timeInWindow := (now - newWindowStart) / MICROS
  (s', newCount, windowSeconds - timeInWindow)

/-! ### Cache key derivation (`CacheRepository._generate_cache_key`) -/

/-- Hex digit for a value below 16. -/
def hexDigit (n : Nat) : Char :=
  if n < 10 then Char.ofNat (48 + n) else Char.ofNat (87 + n)

/-- Four-digit hex rendering (for `\uXXXX` escapes). -/
def hex4 (n : Nat) : String :=
  String.mk ([12, 8, 4, 0].map fun k => hexDigit ((n >>> k) % 16))

/-- `json.dumps` escaping of one character (`ensure_ascii=True`). -/
def escChar (c : Char) : String :=
  if c = '"' then "\\\""
  else if c = '\\' then "\\\\"
  else if c = '\n' then "\\n"
  else if c = '\t' then "\\t"
  else if c = '\r' then "\\r"
  else if c.toNat < 32 || 126 < c.toNat then "\\u" ++ hex4 (c.toNat % 65536)
  else String.mk [c]

/-- `json.dumps` escaping of a string body. -/
def escStr (s : String) : String := String.join (s.data.map escChar)

/-- Decimal rendering of a JSON number. The cache parameters of the
source are always strings or Python ints, so only the integral case is
exercised; non-integral rationals get a definite fallback rendering. -/
def dumpNum (q : ℚ) : String :=
  if q.den = 1 then toString q.num
  else toString q.num ++ "e-" ++ toString q.den

mutual

/-- `json.dumps(v, sort_keys=True)` with the default separators. Object
fields are rendered first and then sorted by key; since the sort
compares keys only and rendering is per-field, this produces exactly
the output of sorting the fields first, as `sort_keys=True` does. -/
def jsonDumps : Val → String
  | .vNull => "null"
  | .vBool true => "true"
  | .vBool false => "false"
  | .vNum q => dumpNum q
  | .vStr s => "\"" ++ escStr s ++ "\""
  | .vList xs => "[" ++ String.intercalate ", " (jsonDumpsList xs) ++ "]"
  | .vDict fs =>
    "\x7b" ++ String.intercalate ", "
      (((jsonDumpsFields fs).insertionSort fun a b => a.1 ≤ b.1).map
        fun p => "\"" ++ escStr p.1 ++ "\": " ++ p.2) ++ "\x7d"

/-- Render each element of a JSON array. -/
def jsonDumpsList : List Val → List String
  | [] => []
  | v :: t => jsonDumps v :: jsonDumpsList t

/-- Render each field of a JSON object to a (key, rendered value) pair. -/
def jsonDumpsFields : List (String × Val) → List (String × String)
  | [] => []
  | (k, v) :: t => (k, jsonDumps v) :: jsonDumpsFields t

end

/-- UTF-8 encoding of one character (`str.encode()`). -/
def utf8Char (c : Char) : List Nat :=
  let n := c.toNat
  if n < 128 then [n]
  else if n < 2048 then [192 ||| (n >>> 6), 128 ||| (n % 64)]
  else if n < 65536 then
    [224 ||| (n >>> 12), 128 ||| ((n >>> 6) % 64), 128 ||| (n % 64)]
  else
    [240 ||| (n >>> 18), 128 ||| ((n >>> 12) % 64), 128 ||| ((n >>> 6) % 64),
     128 ||| (n % 64)]

/-- UTF-8 bytes of a string (`str.encode()`), as naturals below 256. -/
def utf8Bytes (s : String) : List Nat := (s.data.map utf8Char).flatten

/-- Truncation to 32 bits. -/
def w32 (n : Nat) : Nat := n % 4294967296

/-- 32-bit right rotation. -/
def rotr32 (k x : Nat) : Nat := w32 ((x >>> k) ||| (x <<< (32 - k)))

/-- SHA-256 `Ch`. -/
def shaCh (x y z : Nat) : Nat := (x &&& y) ^^^ ((x ^^^ 4294967295) &&& z)

/-- SHA-256 `Maj`. -/
def shaMaj (x y z : Nat) : Nat := (x &&& y) ^^^ (x &&& z) ^^^ (y &&& z)

/-- SHA-256 `Σ0`. -/
def bsig0 (x : Nat) : Nat := rotr32 2 x ^^^ rotr32 13 x ^^^ rotr32 22 x

/-- SHA-256 `Σ1`. -/
def bsig1 (x : Nat) : Nat := rotr32 6 x ^^^ rotr32 11 x ^^^ rotr32 25 x

/-- SHA-256 `σ0`. -/
def ssig0 (x : Nat) : Nat := rotr32 7 x ^^^ rotr32 18 x ^^^ (x >>> 3)

/-- SHA-256 `σ1`. -/
def ssig1 (x : Nat) : Nat := rotr32 17 x ^^^ rotr32 19 x ^^^ (x >>> 10)

/-- The SHA-256 round constants (FIPS 180-4), in decimal. -/
def sha256K : List Nat :=
  [1116352408, 1899447441, 3049323471, 3921009573, 961987163,
   1508970993, 2453635748, 2870763221, 3624381080, 310598401,
   607225278, 1426881987, 1925078388, 2162078206, 2614888103,
   3248222580, 3835390401, 4022224774, 264347078, 604807628,
   770255983, 1249150122, 1555081692, 1996064986, 2554220882,
   2821834349, 2952996808, 3210313671, 3336571891, 3584528711,
   113926993, 338241895, 666307205, 773529912, 1294757372,
   1396182291, 1695183700, 1986661051, 2177026350, 2456956037,
   2730485921, 2820302411, 3259730800, 3345764771, 3516065817,
   3600352804, 4094571909, 275423344, 430227734, 506948616,
   659060556, 883997877, 958139571, 1322822218, 1537002063,
   1747873779, 1955562222, 2024104815, 2227730452, 2361852424,
   2428436474, 2756734187, 3204031479, 3329325298]

/-- The SHA-256 initial hash state (FIPS 180-4), in decimal. -/
def sha256H0 : List Nat :=
  [1779033703, 3144134277, 1013904242, 2773480762,
   1359893119, 2600822924, 528734635, 1541459225]

/-- Big-endian bytes of a 64-bit value. -/
def be8 (n : Nat) : List Nat :=
  [56, 48, 40, 32, 24, 16, 8, 0].map fun k => (n >>> k) % 256

/-- SHA-256 message padding. -/
def sha256Pad (msg : List Nat) : List Nat :=
  let L := msg.length
  let z := (55 + 64 - L % 64) % 64
  msg ++ [128] ++ List.replicate z 0 ++ be8 (L * 8)

/-- Split a byte list into 64-byte blocks (fuelled by the length). -/
def chunksAux : Nat → List Nat → List (List Nat)
  | 0, _ => []
  | _, [] => []
  | fuel + 1, l => l.take 64 :: chunksAux fuel (l.drop 64)

/-- 64-byte blocks of a (padded) byte list. -/
def chunks64 (l : List Nat) : List (List Nat) := chunksAux l.length l

/-- Big-endian 32-bit words of a block. -/
def bytesToWords : List Nat → List Nat
  | b0 :: b1 :: b2 :: b3 :: t =>
    ((b0 <<< 24) ||| (b1 <<< 16) ||| (b2 <<< 8) ||| b3) :: bytesToWords t
  | _ => []

/-- Extend the 16 message words to 64 schedule words; the accumulator is
kept reversed so the four taps are at fixed offsets. -/
def schedAux : Nat → List Nat → List Nat
  | 0, acc => acc.reverse
  | n + 1, acc =>
    let g := fun (k : Nat) => acc.getD k 0
    schedAux n (w32 (ssig1 (g 1) + g 6 + ssig0 (g 14) + g 15) :: acc)

/-- The 64-word message schedule of a block. -/
def sha256Schedule (w16 : List Nat) : List Nat :=
  schedAux 48 w16.reverse

/-- One compression round; the state is the 8-tuple `[a,b,c,d,e,f,g,h]`. -/
def sha256Round (st : List Nat) (kw : Nat × Nat) : List Nat :=
  let g := fun (k : Nat) => st.getD k 0
  let t1 := g 7 + bsig1 (g 4) + shaCh (g 4) (g 5) (g 6) + kw.1 + kw.2
  let t2 := bsig0 (g 0) + shaMaj (g 0) (g 1) (g 2)
  [w32 (t1 + t2), g 0, g 1, g 2, w32 (g 3 + t1), g 4, g 5, g 6]

/-- Process one block into the running hash state. -/
def sha256Block (hs : List Nat) (block : List Nat) : List Nat :=
  let ws := sha256Schedule (bytesToWords block)
  let st := (sha256K.zip ws).foldl sha256Round hs
  (hs.zip st).map fun p => w32 (p.1 + p.2)

/-- `hashlib.sha256(bytes).hexdigest()`. -/
def sha256Hex (msg : List Nat) : String :=
  let hs := (chunks64 (sha256Pad msg)).foldl sha256Block sha256H0
  String.join (hs.map fun h =>
    String.mk ([28, 24, 20, 16, 12, 8, 4, 0].map fun k =>
      hexDigit ((h >>> k) % 16)))

/-- `CacheRepository._generate_cache_key`:
`sha256((query_type + ":" + json.dumps(params, sort_keys=True)).encode()).hexdigest()`.
Parameters are the (insertion-ordered) fields of the params dict. -/
def generateCacheKey (queryType : String) (params : List (String × Val)) :
    String :=
  sha256Hex (utf8Bytes (queryType ++ ":" ++ jsonDumps (.vDict params)))

/-! ### Python numeric coercions used by the response formatters -/

/-- An apostrophe, used inside the literal answer strings of the source. -/
def apos : String := String.mk [Char.ofNat 39]

/-- A word wrapped in single quotes. -/
def sq (s : String) : String := apos ++ s ++ apos

/-- Exponent part of a float literal. -/
def parseExp (sgn mant : ℚ) (t : List Char) : Option ℚ :=
  let p : ℤ × List Char :=
    match t with
    | '+' :: t' => (1, t')
    | '-' :: t' => (-1, t')
    | _ => (1, t)
  let ds := p.2.takeWhile isDigitChar
  let r := p.2.dropWhile isDigitChar
  if ds.isEmpty || !r.isEmpty then none
  else some (sgn * mant * (10 : ℚ) ^ (p.1 * (digitsToNat ds : ℤ)))

/-- `float(s)` on a string: optional surrounding whitespace, optional
sign, decimal digits with optional fraction and optional exponent.
`none` models the `ValueError` raised on any other string. -/
def parseFloat (s : String) : Option ℚ :=
  let l := s.data.dropWhile isSpaceChar
  let l := (l.reverse.dropWhile isSpaceChar).reverse
  let sl : ℚ × List Char :=
    match l with
    | '+' :: t => (1, t)
    | '-' :: t => (-1, t)
    | _ => (1, l)
  let ip := sl.2.takeWhile isDigitChar
  let r := sl.2.dropWhile isDigitChar
  let fr : List Char × List Char :=
    match r with
    | '.' :: t => (t.takeWhile isDigitChar, t.dropWhile isDigitChar)
    | _ => ([], r)
  if ip.isEmpty && fr.1.isEmpty then none
  else
    let mant : ℚ :=
      (digitsToNat ip : ℚ) + (digitsToNat fr.1 : ℚ) / (10 : ℚ) ^ fr.1.length
    match fr.2 with
    | [] => some (sl.1 * mant)
    | 'e' :: t => parseExp sl.1 mant t
    | 'E' :: t => parseExp sl.1 mant t
    | _ => none

/-- Python `float(v)`: numbers pass through, booleans become 0/1, strings
are parsed, everything else raises. -/
def pyFloatE : Val → Except String ℚ
  | .vNum q => .ok q
  | .vBool b => .ok (if b then 1 else 0)
  | .vStr s =>
    match parseFloat s with
    | some q => .ok q
    | none => .error ("could not convert string to float: " ++ sq s)
  | .vNull => .error "float() argument must be a string or a real number, not NoneType"
  | _ => .error "float() argument must be a string or a real number"

/-- Truncation toward zero, as Python `int()` of a float. -/
def pyTrunc (q : ℚ) : ℤ :=
  if q < 0 then -Int.floor (-q) else Int.floor q

/-- `int(s)` on a string: optional whitespace, optional sign, digits. -/
def parseInt (s : String) : Option ℤ :=
  let l := s.data.dropWhile isSpaceChar
  let l := (l.reverse.dropWhile isSpaceChar).reverse
  let sl : ℤ × List Char :=
    match l with
    | '+' :: t => (1, t)
    | '-' :: t => (-1, t)
    | _ => (1, l)
  let ds := sl.2.takeWhile isDigitChar
  let r := sl.2.dropWhile isDigitChar
  if ds.isEmpty || !r.isEmpty then none
  else some (sl.1 * (digitsToNat ds : ℤ))

/-- Python `int(v)`. -/
def pyIntE : Val → Except String ℤ
  | .vNum q => .ok (pyTrunc q)
  | .vBool b => .ok (if b then 1 else 0)
  | .vStr s =>
    match parseInt s with
    | some n => .ok n
    | none => .error ("invalid literal for int() with base 10: " ++ sq s)
  | .vNull => .error "int() argument must be a string or a number, not NoneType"
  | _ => .error "int() argument must be a string or a number"

/-- Left-pad a natural with zeros to a fixed width. -/
def padZeros (width : Nat) (n : Nat) : String :=
  let s := toString n
  String.mk (List.replicate (width - s.length) '0') ++ s

/-- Fixed-point rendering with round-half-even, modelling the `:.Nf`
format specifications of the source (exact on the rationals; binary
double rounding is below the resolution any claim inspects). -/
def fmtFixed (digits : Nat) (q : ℚ) : String :=
  let p : Nat := 10 ^ digits
  let m := q * (p : ℚ)
  let f := Int.floor m
  let r := m - (f : ℚ)
  let n : ℤ :=
    if 1 / 2 < r then f + 1
    else if r < 1 / 2 then f
    else if f % 2 = 0 then f else f + 1
  let a := n.natAbs
  (if n < 0 then "-" else "") ++ toString (a / p) ++ "." ++
    padZeros digits (a % p)

/-- `f"{x:.2f}"`. -/
def fmt2 (q : ℚ) : String := fmtFixed 2 q

/-- `f"{x:.4f}"`. -/
def fmt4 (q : ℚ) : String := fmtFixed 4 q

/-- Insert thousands separators (from the right) into a reversed digit
list. -/
def group3 : List Char → List Char
  | a :: b :: c :: d :: t => a :: b :: c :: ',' :: group3 (d :: t)
  | l => l

/-- `f"{v:,}"` for an integer. -/
def fmtGroup (i : ℤ) : String :=
  (if i < 0 then "-" else "") ++
    String.mk (group3 (toString i.natAbs).data.reverse).reverse

/-- Optional rational as a JSON field value. -/
def optNum : Option ℚ → Val
  | some q => .vNum q
  | none => .vNull

/-- Optional integer as a JSON field value. -/
def optInt : Option ℤ → Val
  | some n => .vNum (n : ℚ)
  | none => .vNull

/-- Python list coercion point: operations such as slicing/iteration that
require a list raise on other values (surfacing as `PROCESSING_ERROR`). -/
def asListE : Val → Except String (List Val)
  | .vList xs => .ok xs
  | _ => .error "value is not a list"

/-- Dict test (`isinstance(v, dict)` / pydantic `dict` fields). -/
def isDictV : Val → Bool
  | .vDict _ => true
  | _ => false

/-- Python `str(v)` for the scalar values the formatter meets. -/
def pyStr : Val → String
  | .vStr s => s
  | .vNum q => dumpNum q
  | .vBool b => if b then "True" else "False"
  | .vNull => "None"
  | v => jsonDumps v

/-! ### Orchestrator environment (`ChatService`) -/

/-- The upstream tool calls of `MCPClient` used by the orchestrator. -/
inductive ToolCall where
  | getPrice (symbol : String)
  | getQuote (symbol : String)
  | getTimeSeries (symbol interval : String) (outputsize : Nat)
  | technicalIndicator (symbol indicator interval : String)
      (timePeriod outputsize : Nat)
  | convertCurrency (fromCurrency toCurrency : String) (amount : ℚ)
  | listCommodities

/-- `MCPToolResult`: success flag, data payload, error message. -/
structure MCPToolResult where
  success : Bool
  data : Val
  error : String

/-- One cache row as the repository would surface it for this request:
its payload, whether it is currently fresh, and its `created_at`
rendering (used by the `_cached_at` stale annotation). -/
structure CacheEntry where
  data : Val
  fresh : Bool
  createdAt : String

/-- An effect performed by the orchestrator, in order. -/
inductive Effect where
  | cacheGet (queryType : String) (params : List (String × Val))
      (allowStale : Bool)
  | cacheSet (queryType : String) (params : List (String × Val))
  | mcpCall (call : ToolCall)
  | sessionWrite (s : Session)
  | contextWrite (ctx : List CtxEntry)

/-- The pure oracle environment for one `process_chat` request: the
configuration, the clock, the session row keyed by the request's
session id, whether the rate-limit increment raises a store error, the
cache contents and the upstream server. -/
structure Env where
  rateLimitRequests : Nat
  rateLimitWindowSeconds : Nat
  sessionTimeoutMinutes : Nat
  now : Nat
  nowIso : String
  nowPretty : String
  sessionId : String
  session : Option Session
  incrementRaises : Bool
  cache : String → List (String × Val) → Option CacheEntry
  mcp : ToolCall → MCPToolResult

/-- `cache_repo.get(type, params)` (fresh only, `allow_stale=False`). -/
def cacheGetFresh (env : Env) (t : String) (p : List (String × Val)) :
    Option Val :=
  match env.cache t p with
  | some e => if e.fresh then some e.data else none
  | none => none

/-- The `_stale` / `_cached_at` annotation a stale read receives. -/
def annotateStale (e : CacheEntry) : Val :=
  match e.data with
  | .vDict fs =>
    .vDict (dictSet (dictSet fs "_stale" (.vBool true))
      "_cached_at" (.vStr e.createdAt))
  | v => v

/-- `cache_repo.get(type, params, allow_stale=True)`. -/
def cacheGetStale (env : Env) (t : String) (p : List (String × Val)) :
    Option Val :=
  match env.cache t p with
  | some e => if e.fresh then some e.data else some (annotateStale e)
  | none => none

/-- A fresh-hit test: `if cached and not cached.get("_stale")`. -/
def freshHit : Option Val → Bool
  | some d => pyTruthy d && !pyTruthy (dictGet d "_stale")
  | none => false

/-- A stale-hit test: `if cached` after an `allow_stale=True` read. -/
def staleHit : Option Val → Bool
  | some d => pyTruthy d
  | none => false

/-- A successful chat response (`ChatResponse`). -/
structure ChatResp where
  answer : String
  rtype : String
  data : Val
  timestamp : String
  formattedTime : String

/-- Either a `ChatResponse` or an `ErrorResponse` with answer, code and
message — the `(response, error)` pair returned by the service. -/
inductive ChatOutcome where
  | ok (resp : ChatResp)
  | err (answer : String) (code : String) (message : String)

/-- The error code of an outcome, if any. -/
def ChatOutcome.codeOf : ChatOutcome → Option String
  | .ok _ => none
  | .err _ c _ => some c

/-- The error message of an outcome, if any. -/
def ChatOutcome.msgOf : ChatOutcome → Option String
  | .ok _ => none
  | .err _ _ m => some m

/-- Is the outcome a success response? -/
def ChatOutcome.isOk : ChatOutcome → Bool
  | .ok _ => true
  | .err _ _ _ => false

/-- Lift a formatter result into an outcome (formatter exceptions
propagate). -/
def liftFmt : Except String ChatResp → Except String ChatOutcome
  | .ok r => .ok (.ok r)
  | .error m => .error m

/-- Lift a formatter result, prefixing the answer (the stale-cache
warning paths). -/
def liftFmtWarn (pre : String) : Except String ChatResp →
    Except String ChatOutcome
  | .ok r => .ok (.ok { r with answer := pre ++ r.answer })
  | .error m => .error m

/-! ### Response formatters (`ChatService._format_*`) -/

/-- The ranked alias chain for the price field:
`data.get("price") or data.get("close") or data.get("last") or 0`. -/
def priceRawOf (data : Val) : Val :=
  pyOr (dictGet data "price")
    (pyOr (dictGet data "close") (pyOr (dictGet data "last") (.vNum 0)))

/-- The ranked alias chain for the percent-change field:
`data.get("change_percent") or data.get("percent_change") or
data.get("change")`. -/
def changeRawOf (data : Val) : Val :=
  pyOr (dictGet data "change_percent")
    (pyOr (dictGet data "percent_change") (dictGet data "change"))

/-- `ChatService._format_price_response`. The coercion
`float(price_raw) if price_raw else 0` raises on a truthy unparsable
value. -/
def formatPriceResponse (symbol : String) (data : Val)
    (nowIso nowPretty : String) : Except String ChatResp := do
  let priceRaw := priceRawOf data
  let price ← if pyTruthy priceRaw then pyFloatE priceRaw else pure 0
  let changeRaw := changeRawOf data
  let changePercent ←
    if pyTruthy changeRaw then do
      let c ← pyFloatE changeRaw
      pure (some c)
    else pure none
  let answer :=
    match changePercent with
    | some cp =>
      "The current price of " ++ symbol ++ " is $" ++ fmt2 price ++ ", " ++
        (if 0 < cp then "up" else "down") ++ " " ++ fmt2 |cp| ++ "% today."
    | none =>
      "The current price of " ++ symbol ++ " is $" ++ fmt2 price ++ "."
  pure
    { answer := answer
      rtype := "price"
      data := .vDict [("symbol", .vStr symbol), ("price", .vNum price),
        ("change_percent", optNum changePercent)]
      timestamp := nowIso ++ "Z"
      formattedTime := nowPretty }

/-- `ChatService._format_quote_response`. -/
def formatQuoteResponse (symbol : String) (data : Val)
    (nowIso nowPretty : String) : Except String ChatResp := do
  let openV := dictGetD data "open" (.vNum 0)
  let highV := dictGetD data "high" (.vNum 0)
  let lowV := dictGetD data "low" (.vNum 0)
  let closeV := dictGetD data "close" (.vNum 0)
  let volumeV := dictGet data "volume"
  let changeRaw := pyOr (dictGet data "change_percent")
    (dictGet data "percent_change")
  let h52Raw := pyOr (dictGet data "fifty_two_week_high")
    (dictGet data "52_week_high")
  let l52Raw := pyOr (dictGet data "fifty_two_week_low")
    (dictGet data "52_week_low")
  let openF ← pyFloatE openV
  let highF ← pyFloatE highV
  let lowF ← pyFloatE lowV
  let closeF ← pyFloatE closeV
  let answer := "Here" ++ apos ++ "s the detailed quote for " ++ symbol ++
    ": Open: $" ++ fmt2 openF ++ ", High: $" ++ fmt2 highF ++
    ", Low: $" ++ fmt2 lowF ++ ", Close: $" ++ fmt2 closeF
  let volumeI ←
    if pyTruthy volumeV then do
      let v ← pyIntE volumeV
      pure (some v)
    else pure none
  let answer :=
    match volumeI with
    | some v => answer ++ ", Volume: " ++ fmtGroup v
    | none => answer
  let changeF ←
    if pyTruthy changeRaw then do
      let c ← pyFloatE changeRaw
      pure (some c)
    else pure none
  let answer :=
    match changeF with
    | some c => answer ++ ", Change: " ++ fmt2 c ++ "%"
    | none => answer
  let h52F ←
    if pyTruthy h52Raw then do
      let h ← pyFloatE h52Raw
      pure (some h)
    else pure none
  let l52F ←
    if pyTruthy l52Raw then do
      let l ← pyFloatE l52Raw
      pure (some l)
    else pure none
  pure
    { answer := answer
      rtype := "quote"
      data := .vDict [("symbol", .vStr symbol), ("open", .vNum openF),
        ("high", .vNum highF), ("low", .vNum lowF), ("close", .vNum closeF),
        ("volume", optInt volumeI), ("change_percent", optNum changeF),
        ("fifty_two_week_high", optNum h52F),
        ("fifty_two_week_low", optNum l52F)]
      timestamp := nowIso ++ "Z"
      formattedTime := nowPretty }

/-- Build one `CandleData` dict from a raw candle. -/
def buildCandle (v : Val) : Except String Val := do
  match v with
  | .vDict _ => pure ()
  | _ => throw "candle entry is not a dict"
  let dt ←
    match dictGetD v "datetime" (.vStr "") with
    | .vStr s => pure s
    | _ => throw "candle datetime is not a string"
  let openF ← pyFloatE (dictGetD v "open" (.vNum 0))
  let highF ← pyFloatE (dictGetD v "high" (.vNum 0))
  let lowF ← pyFloatE (dictGetD v "low" (.vNum 0))
  let closeF ← pyFloatE (dictGetD v "close" (.vNum 0))
  let volumeI ←
    if pyTruthy (dictGet v "volume") then do
      let n ← pyIntE (dictGet v "volume")
      pure (some n)
    else pure none
  pure (.vDict [("datetime", .vStr dt), ("open", .vNum openF),
    ("high", .vNum highF), ("low", .vNum lowF), ("close", .vNum closeF),
    ("volume", optInt volumeI)])

/-- Build the candles of the first 100 raw values. -/
def buildCandles : List Val → Except String (List Val)
  | [] => .ok []
  | v :: t => do
    let c ← buildCandle v
    let cs ← buildCandles t
    pure (c :: cs)

/-- `ChatService._format_historical_response`. -/
def formatHistoricalResponse (symbol interval : String) (data : Val)
    (nowIso nowPretty : String) : Except String ChatResp := do
  let valuesV := pyOr (dictGet data "values")
    (pyOr (dictGet data "candles") (pyOr (dictGet data "data") (.vList [])))
  let values ← asListE valuesV
  let candles ← buildCandles (values.take 100)
  pure
    { answer := "Here" ++ apos ++ "s the " ++ interval ++
        " historical data for " ++ symbol ++ ". I found " ++
        toString candles.length ++ " candles."
      rtype := "historical"
      data := .vDict [("symbol", .vStr symbol), ("interval", .vStr interval),
        ("candles", .vList candles)]
      timestamp := nowIso ++ "Z"
      formattedTime := nowPretty }

/-- `ChatService._format_indicator_response`. -/
def formatIndicatorResponse (symbol indicator : String) (period : Nat)
    (data : Val) (nowIso nowPretty : String) : Except String ChatResp := do
  let valuesV := pyOr (dictGet data "values")
    (pyOr (dictGet data "data") (.vList []))
  let values ← asListE valuesV
  let kept := values.take 100
  if kept.all isDictV then pure () else throw "indicator values are not dicts"
  pure
    { answer := "Here" ++ apos ++ "s the " ++ pyUpper indicator ++ "(" ++
        toString period ++ ") for " ++ symbol ++ ". I calculated " ++
        toString values.length ++ " data points."
      rtype := "indicator"
      data := .vDict [("symbol", .vStr symbol),
        ("indicator", .vStr (pyUpper indicator)),
        ("period", .vNum (period : ℚ)), ("values", .vList kept)]
      timestamp := nowIso ++ "Z"
      formattedTime := nowPretty }

/-- `ChatService._format_conversion_response`. -/
def formatConversionResponse (fromCurrency toCurrency : String)
    (amount : ℚ) (data : Val) (nowIso nowPretty : String) :
    Except String ChatResp := do
  let rateV := pyOr (dictGet data "rate")
    (pyOr (dictGet data "exchange_rate") (.vNum 1))
  let resultV ←
    if pyTruthy (dictGet data "result") then pure (dictGet data "result")
    else if pyTruthy (dictGet data "amount") then pure (dictGet data "amount")
    else do
      let r ← pyFloatE rateV
      pure (Val.vNum (amount * r))
  let resultF ← pyFloatE resultV
  let rateF ← pyFloatE rateV
  pure
    { answer := fmt2 amount ++ " " ++ fromCurrency ++ " equals " ++
        fmt2 resultF ++ " " ++ toCurrency ++ " (rate: " ++ fmt4 rateF ++ ")."
      rtype := "conversion"
      data := .vDict [("from", .vStr fromCurrency), ("to", .vStr toCurrency),
        ("amount", .vNum amount), ("result", .vNum resultF),
        ("rate", .vNum rateF)]
      timestamp := nowIso ++ "Z"
      formattedTime := nowPretty }

/-- One entry of `_format_commodities_list`. -/
def fmtCommodityItem (item : Val) : Option String :=
  match item with
  | .vDict _ =>
    let name := dictGetD item "name" (.vStr "")
    let symbol := dictGetD item "symbol" (.vStr "")
    if pyTruthy name && pyTruthy symbol then
      some (pyStr name ++ " (" ++ pyStr symbol ++ ")")
    else if pyTruthy symbol then some (pyStr symbol)
    else if pyTruthy name then some (pyStr name)
    else none
  | v => some (pyStr v)

/-- `ChatService._format_commodities_list`. -/
def formatCommoditiesList (commodities : List Val) : String :=
  if commodities.isEmpty then "No commodities available"
  else
    let formatted := commodities.filterMap fmtCommodityItem
    if formatted.isEmpty then "No commodities available"
    else String.intercalate ", " formatted

/-- `ChatService.KNOWN_COMMODITIES`, the static fallback list. -/
def knownCommodities : List Val :=
  [.vDict [("symbol", .vStr "XAU/USD"), ("name", .vStr "Gold")],
   .vDict [("symbol", .vStr "XAG/USD"), ("name", .vStr "Silver")],
   .vDict [("symbol", .vStr "XPT/USD"), ("name", .vStr "Platinum")],
   .vDict [("symbol", .vStr "XPD/USD"), ("name", .vStr "Palladium")],
   .vDict [("symbol", .vStr "NG"), ("name", .vStr "Natural Gas")],
   .vDict [("symbol", .vStr "CL"), ("name", .vStr "Crude Oil WTI")],
   .vDict [("symbol", .vStr "BZ"), ("name", .vStr "Brent Crude Oil")],
   .vDict [("symbol", .vStr "HG"), ("name", .vStr "Copper")],
   .vDict [("symbol", .vStr "ZC"), ("name", .vStr "Corn")],
   .vDict [("symbol", .vStr "ZW"), ("name", .vStr "Wheat")],
   .vDict [("symbol", .vStr "ZS"), ("name", .vStr "Soybeans")],
   .vDict [("symbol", .vStr "KC"), ("name", .vStr "Coffee")],
   .vDict [("symbol", .vStr "CT"), ("name", .vStr "Cotton")],
   .vDict [("symbol", .vStr "SB"), ("name", .vStr "Sugar")]]

/-! ### Intent handlers (`ChatService._handle_*`) -/

/-- `ChatService._handle_price_query`: fresh cache, upstream, stale
fallback, `MCP_ERROR`. Returns the effects performed and the outcome
(or a raised exception). -/
def handlePriceQuery (env : Env) (parsed : ParsedQuery) :
    List Effect × Except String ChatOutcome :=
  if parsed.symbols.isEmpty then
    ([], .ok (.err ("I couldn" ++ apos ++
      "t identify a trading symbol in your query. Please specify a symbol like " ++
      sq "gold" ++ ", " ++ sq "AAPL" ++ ", or " ++ sq "EUR/USD" ++ ".")
      "NO_SYMBOL" "No trading symbol found in query"))
  else
    let symbol := parsed.symbols.headD ""
    let cacheParams := [("symbol", Val.vStr symbol)]
    let e1 := Effect.cacheGet "price" cacheParams false
    let cached := cacheGetFresh env "price" cacheParams
    if freshHit cached then
      ([e1], liftFmt (formatPriceResponse symbol (cached.getD .vNull)
        env.nowIso env.nowPretty))
    else
      let e2 := Effect.mcpCall (.getPrice symbol)
      let result := env.mcp (.getPrice symbol)
      if !result.success then
        let e3 := Effect.cacheGet "price" cacheParams true
        let stale := cacheGetStale env "price" cacheParams
        if staleHit stale then
          ([e1, e2, e3], liftFmtWarn "⚠️ Using cached data (may be stale): "
            (formatPriceResponse symbol (stale.getD .vNull)
              env.nowIso env.nowPretty))
        else
          ([e1, e2, e3], .ok (.err ("Sorry, I couldn" ++ apos ++
            "t get the price for " ++ symbol ++ ". " ++ result.error)
            "MCP_ERROR" result.error))
      else
        ([e1, e2, Effect.cacheSet "price" cacheParams],
          liftFmt (formatPriceResponse symbol result.data
            env.nowIso env.nowPretty))

/-- `ChatService._handle_quote_query`. -/
def handleQuoteQuery (env : Env) (parsed : ParsedQuery) :
    List Effect × Except String ChatOutcome :=
  if parsed.symbols.isEmpty then
    ([], .ok (.err ("I couldn" ++ apos ++
      "t identify a trading symbol. Please specify a symbol like " ++
      sq "AAPL" ++ " or " ++ sq "EUR/USD" ++ ".")
      "NO_SYMBOL" "No trading symbol found in query"))
  else
    let symbol := parsed.symbols.headD ""
    let cacheParams := [("symbol", Val.vStr symbol)]
    let e1 := Effect.cacheGet "quote" cacheParams false
    let cached := cacheGetFresh env "quote" cacheParams
    if freshHit cached then
      ([e1], liftFmt (formatQuoteResponse symbol (cached.getD .vNull)
        env.nowIso env.nowPretty))
    else
      let e2 := Effect.mcpCall (.getQuote symbol)
      let result := env.mcp (.getQuote symbol)
      if !result.success then
        let e3 := Effect.cacheGet "quote" cacheParams true
        let stale := cacheGetStale env "quote" cacheParams
        if staleHit stale then
          ([e1, e2, e3], liftFmtWarn "⚠️ Using cached data: "
            (formatQuoteResponse symbol (stale.getD .vNull)
              env.nowIso env.nowPretty))
        else
          ([e1, e2, e3], .ok (.err ("Sorry, I couldn" ++ apos ++
            "t get quote data for " ++ symbol ++ ". " ++ result.error)
            "MCP_ERROR" result.error))
      else
        ([e1, e2, Effect.cacheSet "quote" cacheParams],
          liftFmt (formatQuoteResponse symbol result.data
            env.nowIso env.nowPretty))

/-- `ChatService._handle_historical_query`. -/
def handleHistoricalQuery (env : Env) (parsed : ParsedQuery) :
    List Effect × Except String ChatOutcome :=
  if parsed.symbols.isEmpty then
    ([], .ok (.err "Please specify a symbol to get historical data for."
      "NO_SYMBOL" "No trading symbol found in query"))
  else
    let symbol := parsed.symbols.headD ""
    let cacheParams := [("symbol", Val.vStr symbol),
      ("interval", Val.vStr parsed.interval),
      ("outputsize", Val.vNum (parsed.outputsize : ℚ))]
    let e1 := Effect.cacheGet "historical" cacheParams false
    let cached := cacheGetFresh env "historical" cacheParams
    if freshHit cached then
      ([e1], liftFmt (formatHistoricalResponse symbol parsed.interval
        (cached.getD .vNull) env.nowIso env.nowPretty))
    else
      let call := ToolCall.getTimeSeries symbol parsed.interval
        parsed.outputsize
      let e2 := Effect.mcpCall call
      let result := env.mcp call
      if !result.success then
        let e3 := Effect.cacheGet "historical" cacheParams true
        let stale := cacheGetStale env "historical" cacheParams
        if staleHit stale then
          ([e1, e2, e3], liftFmtWarn "⚠️ Using cached data: "
            (formatHistoricalResponse symbol parsed.interval
              (stale.getD .vNull) env.nowIso env.nowPretty))
        else
          ([e1, e2, e3], .ok (.err ("Sorry, I couldn" ++ apos ++
            "t get historical data for " ++ symbol ++ ". " ++ result.error)
            "MCP_ERROR" result.error))
      else
        ([e1, e2, Effect.cacheSet "historical" cacheParams],
          liftFmt (formatHistoricalResponse symbol parsed.interval
            result.data env.nowIso env.nowPretty))

/-- `ChatService._handle_indicator_query`. -/
def handleIndicatorQuery (env : Env) (parsed : ParsedQuery) :
    List Effect × Except String ChatOutcome :=
  if parsed.symbols.isEmpty then
    ([], .ok (.err "Please specify a symbol to calculate the indicator for."
      "NO_SYMBOL" "No trading symbol found in query"))
  else
    match parsed.indicator with
    | none =>
      ([], .ok (.err ("Please specify which indicator you want (e.g., RSI, SMA, MACD).")
        "NO_INDICATOR" "No indicator specified in query"))
    | some indicator =>
      let symbol := parsed.symbols.headD ""
      let cacheParams := [("symbol", Val.vStr symbol),
        ("indicator", Val.vStr indicator),
        ("interval", Val.vStr parsed.interval),
        ("time_period", Val.vNum (parsed.timePeriod : ℚ))]
      let e1 := Effect.cacheGet "indicator" cacheParams false
      let cached := cacheGetFresh env "indicator" cacheParams
      if freshHit cached then
        ([e1], liftFmt (formatIndicatorResponse symbol indicator
          parsed.timePeriod (cached.getD .vNull) env.nowIso env.nowPretty))
      else
        let call := ToolCall.technicalIndicator symbol indicator
          parsed.interval parsed.timePeriod parsed.outputsize
        let e2 := Effect.mcpCall call
        let result := env.mcp call
        if !result.success then
          let e3 := Effect.cacheGet "indicator" cacheParams true
          let stale := cacheGetStale env "indicator" cacheParams
          if staleHit stale then
            ([e1, e2, e3], liftFmtWarn "⚠️ Using cached data: "
              (formatIndicatorResponse symbol indicator parsed.timePeriod
                (stale.getD .vNull) env.nowIso env.nowPretty))
          else
            ([e1, e2, e3], .ok (.err ("Sorry, I couldn" ++ apos ++
              "t calculate " ++ pyUpper indicator ++ " for " ++ symbol ++
              ". " ++ result.error) "MCP_ERROR" result.error))
        else
          ([e1, e2, Effect.cacheSet "indicator" cacheParams],
            liftFmt (formatIndicatorResponse symbol indicator
              parsed.timePeriod result.data env.nowIso env.nowPretty))

/-- `ChatService._handle_conversion_query`: note there is no cache read
or write on this path, and no stale fallback. -/
def handleConversionQuery (env : Env) (parsed : ParsedQuery) :
    List Effect × Except String ChatOutcome :=
  match parsed.fromCurrency, parsed.toCurrency with
  | some fromC, some toC =>
    let amount :=
      match parsed.amount with
      | some a => if a = 0 then 1 else a
      | none => 1
    let call := ToolCall.convertCurrency fromC toC amount
    let result := env.mcp call
    if !result.success then
      ([Effect.mcpCall call], .ok (.err ("Sorry, I couldn" ++ apos ++
        "t convert " ++ fromC ++ " to " ++ toC ++ ". " ++ result.error)
        "MCP_ERROR" result.error))
    else
      ([Effect.mcpCall call],
        liftFmt (formatConversionResponse fromC toC amount result.data
          env.nowIso env.nowPretty))
  | _, _ =>
    ([], .ok (.err ("Please specify both currencies for conversion (e.g., " ++
      sq "convert 100 USD to EUR" ++ ").")
      "MISSING_CURRENCIES" "Need both source and target currencies"))

/-- `ChatService._handle_commodities_list`: fresh cache, upstream, stale
fallback, then the static `KNOWN_COMMODITIES` success fallback. -/
def handleCommoditiesList (env : Env) :
    List Effect × Except String ChatOutcome :=
  let cacheParams := [("type", Val.vStr "commodities_list")]
  let e1 := Effect.cacheGet "commodities" cacheParams false
  let cached := cacheGetFresh env "commodities" cacheParams
  if freshHit cached then
    let commoditiesV := dictGetD (cached.getD .vNull) "commodities" (.vList [])
    ([e1],
      match asListE commoditiesV with
      | .error m => .error m
      | .ok cs =>
        .ok (.ok
          { answer := "Here are the available commodities: " ++
              formatCommoditiesList cs
            rtype := "quote"
            data := .vDict [("commodities", commoditiesV)]
            timestamp := env.nowIso ++ "Z"
            formattedTime := env.nowPretty }))
  else
    let e2 := Effect.mcpCall .listCommodities
    let result := env.mcp .listCommodities
    if result.success then
      let commodities :=
        match result.data with
        | .vList xs => xs
        | _ => []
      ([e1, e2, Effect.cacheSet "commodities" cacheParams],
        .ok (.ok
          { answer := "Here are the available commodities: " ++
              formatCommoditiesList commodities
            rtype := "quote"
            data := .vDict [("commodities", .vList commodities)]
            timestamp := env.nowIso ++ "Z"
            formattedTime := env.nowPretty }))
    else
      let e3 := Effect.cacheGet "commodities" cacheParams true
      let stale := cacheGetStale env "commodities" cacheParams
      if staleHit stale then
        let commoditiesV := dictGetD (stale.getD .vNull) "commodities" (.vList [])
        ([e1, e2, e3],
          match asListE commoditiesV with
          | .error m => .error m
          | .ok cs =>
            .ok (.ok
              { answer := "⚠️ Using cached data: Here are the available commodities: " ++
                  formatCommoditiesList cs
                rtype := "quote"
                data := .vDict [("commodities", commoditiesV)]
                timestamp := env.nowIso ++ "Z"
                formattedTime := env.nowPretty }))
      else
        ([e1, e2, e3],
          .ok (.ok
            { answer := "⚠️ Using known commodities list (MCP unavailable): " ++
                formatCommoditiesList knownCommodities
              rtype := "quote"
              data := .vDict [("commodities", .vList knownCommodities)]
              timestamp := env.nowIso ++ "Z"
              formattedTime := env.nowPretty }))

/-- The intent dispatch of `process_chat` (the `else` arm routes unknown
and comparison intents to the price handler, as the source does). -/
def handleIntent (env : Env) (parsed : ParsedQuery) :
    List Effect × Except String ChatOutcome :=
  match parsed.intent with
  | .price => handlePriceQuery env parsed
  | .quote => handleQuoteQuery env parsed
  | .historical => handleHistoricalQuery env parsed
  | .indicator => handleIndicatorQuery env parsed
  | .conversion => handleConversionQuery env parsed
  | .commoditiesList => handleCommoditiesList env
  | _ => handlePriceQuery env parsed

/-- Parse, dispatch, catch handler exceptions as `PROCESSING_ERROR`, and
record the turn context on success with non-empty symbols
(`process_chat` lines after the rate-limit gate). -/
def dispatchAndRecord (env : Env) (s : Session) (query : String) :
    ChatOutcome × List Effect :=
  let parsed := parse query s.context
  let r := handleIntent env parsed
  match r.2 with
  | .error m =>
    (.err "Sorry, I encountered an error processing your request. Please try again."
      "PROCESSING_ERROR" m, r.1)
  | .ok o =>
    match o with
    | .ok _ =>
      if parsed.symbols.isEmpty then (o, r.1)
      else
        let entry : CtxEntry :=
          { query := parsed.rawQuery
            symbols := parsed.symbols
            intentVal := intentValue parsed.intent
            indicator := parsed.indicator
            interval := parsed.interval
            timestamp := env.nowIso }
        (o, r.1 ++
          [Effect.contextWrite
            (s.context.drop (s.context.length - 9) ++ [entry])])
    | .err _ _ _ => (o, r.1)

/-- `ChatService.process_chat` on the deterministic (non-agent) path:
session validation, the rate-limit gate (whose store failure is caught
and logged, after which processing continues), then dispatch. Returns
the outcome and the ordered effects. -/
def processChat (env : Env) (query : String) : ChatOutcome × List Effect :=
  match env.session with
  | none =>
    (.err "Session not found. Please create a new session."
      "SESSION_NOT_FOUND"
      ("Session " ++ env.sessionId ++ " does not exist"), [])
  | some s =>
    if isExpired env.sessionTimeoutMinutes env.now s then
      (.err "Your session has expired. Please create a new session to continue."
        "SESSION_EXPIRED"
        ("Session " ++ env.sessionId ++ " has expired due to inactivity"), [])
    else if env.incrementRaises then dispatchAndRecord env s query
    else
      let inc := incrementRequestCount s env.now env.rateLimitWindowSeconds
      if env.rateLimitRequests < inc.2.1 then
        (.err ("You" ++ apos ++ "ve made too many requests. Please wait " ++
          toString inc.2.2 ++ " seconds before trying again.")
          "RATE_LIMITED"
          ("Rate limit exceeded: " ++ toString inc.2.1 ++ "/" ++
            toString env.rateLimitRequests ++ " requests"),
          [Effect.sessionWrite inc.1])
      else
        let r := dispatchAndRecord env s query
        (r.1, Effect.sessionWrite inc.1 :: r.2)

/-! ### The specification's classification table, for the refinement
claim about intent ordering -/

/-- The specification's rule table for intent classification, in the
spec's order; rule 7 matches everything as `price`. This definition
follows the spec's words and is compared against `detectIntent`, which
is translated from the source. -/
def specIntentRules : List ((List Char → Bool) × QueryIntent) :=
  [(fun l => containsAny l commoditiesPhrases, .commoditiesList),
   (fun l => containsAny l conversionPhrases, .conversion),
   (fun l => (indicatorTable.map Prod.fst).any fun k => containsSub l k.data,
     .indicator),
   (fun l => containsAny l historicalPhrases || matchLastN l, .historical),
   (fun l => containsAny l quotePhrases, .quote),
   (fun l => containsAny l comparisonPhrases, .comparison),
   (fun _ => true, .price)]

/-- First-match-wins evaluation of a rule table. -/
def specFirstMatch (l : List Char) :
    List ((List Char → Bool) × QueryIntent) → QueryIntent
  | [] => .price
  | r :: t => if r.1 l then r.2 else specFirstMatch l t

/-! ### Concrete environments for witnesses and counterexamples -/

/-- A session created just now (at time 0). -/
def sessionFresh : Session := ⟨0, 0, [], 0, 0⟩

/-- A session that has made 29 requests in the current window. -/
def session29 : Session := ⟨0, 0, [], 29, 0⟩

/-- A session that has made 30 requests in the current window. -/
def session30 : Session := ⟨0, 0, [], 30, 0⟩

/-- An empty cache. -/
def emptyCache : String → List (String × Val) → Option CacheEntry :=
  fun _ _ => none

/-- An upstream server on which every call fails. -/
def mcpAllFail : ToolCall → MCPToolResult :=
  fun _ => ⟨false, .vNull, "upstream request timed out"⟩

/-- An upstream server that only answers `tools/call list_commodities`
with an (empty) list. -/
def mcpListOk : ToolCall → MCPToolResult := fun c =>
  match c with
  | .listCommodities => ⟨true, .vList [], ""⟩
  | _ => ⟨false, .vNull, "unused"⟩

/-- An upstream server that answers conversions. -/
def mcpConvOk : ToolCall → MCPToolResult := fun c =>
  match c with
  | .convertCurrency _ _ _ =>
    ⟨true, .vDict [("rate", .vNum 2), ("result", .vNum 200)], ""⟩
  | _ => ⟨false, .vNull, "unused"⟩

/-- A price payload whose price field does not parse as a float. -/
def badPriceData : Val := .vDict [("price", .vStr "n/a")]

/-- An upstream server that answers price calls with the unparsable
payload. -/
def mcpBadPrice : ToolCall → MCPToolResult := fun c =>
  match c with
  | .getPrice _ => ⟨true, badPriceData, ""⟩
  | _ => ⟨false, .vNull, "unused"⟩

/-- A fresh cache entry under the `conversion` type (no code path ever
reads it — the point of the conversion-cache counterexample). -/
def convCacheEntry : CacheEntry :=
  ⟨.vDict [("rate", .vNum 2)], true, "2026-01-01T00:00:00"⟩

/-- A cache holding only the conversion entry above. -/
def cacheWithConversion : String → List (String × Val) → Option CacheEntry :=
  fun t _ => if t = "conversion" then some convCacheEntry else none

/-- The base request environment: default configuration, a fresh
session, empty cache, failing upstream. -/
def baseEnv : Env :=
  { rateLimitRequests := 30
    rateLimitWindowSeconds := 60
    sessionTimeoutMinutes := 60
    now := 0
    nowIso := "2026-01-01T00:00:00"
    nowPretty := "January 01, 2026 at 12:00 AM UTC"
    sessionId := "c32179b9"
    session := some sessionFresh
    incrementRaises := false
    cache := emptyCache
    mcp := mcpAllFail }

/-- Environment for the C3 counterexample: the rate-limit increment
raises, the upstream answers the commodities list. -/
def envIncRaises : Env := { baseEnv with incrementRaises := true, mcp := mcpListOk }

/-- Environment for the C3 witness: the increment raises, upstream fails. -/
def envIncRaisesFail : Env := { baseEnv with incrementRaises := true }

/-- Environment for the C4 counterexample: a fresh conversion cache
entry exists and the upstream answers conversions. -/
def envConvCached : Env :=
  { baseEnv with cache := cacheWithConversion, mcp := mcpConvOk }

/-- Environment for the C5 counterexample: upstream returns an
unparsable price payload. -/
def envBadPrice : Env := { baseEnv with mcp := mcpBadPrice }

/-- Environment for the C6 witness: the session has 29 requests in the
window, so this request reaches exactly the limit. -/
def envAtLimit : Env := { baseEnv with session := some session29 }

/-- Environment for the C10 witness: the session has 30 requests in the
window, so this request is rejected. -/
def envOverLimit : Env := { baseEnv with session := some session30 }

/-- The context of one prior turn about gold, for the follow-up witness. -/
def ctxGold : List CtxEntry :=
  [⟨"price of gold", ["XAU/USD"], "price", none, "1day",
    "2026-01-01T00:00:00"⟩]

/-- Cache params in one insertion order. -/
def paramsAB : List (String × Val) :=
  [("symbol", Val.vStr "AAPL"), ("interval", Val.vStr "1day")]

/-- The same cache params in the other insertion order. -/
def paramsBA : List (String × Val) :=
  [("interval", Val.vStr "1day"), ("symbol", Val.vStr "AAPL")]

/-!
## Theorems settling the claims
-/

/-- C1 (counterexample): the claim `request_count ≤ RATE_LIMIT_REQUESTS + 1`
fails on the code. Starting from a fresh session, 32 calls to
`increment_request_count` within one window (defaults
`RATE_LIMIT_REQUESTS = 30`, `RATE_LIMIT_WINDOW_SECONDS = 60`) drive
`request_count` to 32 > 31: rejected requests keep incrementing the
counter, so the count within a window is not bounded by the limit. -/
theorem increment_count_exceeds_bound :
    ((fun s => (incrementRequestCount s 0 60).1)^[32] sessionFresh).requestCount
      = 32 ∧ 30 + 1 < 32 := by
  constructor
  · decide
  · decide

/-- C1 (amended): a single call to the rate-limit increment either
resets the count to 1 (window elapsed) or adds exactly one; hence when
the session's count before the call is at most `RATE_LIMIT_REQUESTS`
(in particular for the first over-limit request of a window), the
resulting count is at most `RATE_LIMIT_REQUESTS + 1`. Later requests in
the same window keep incrementing, so the bound does not hold globally. -/
theorem increment_count_step (s : Session) (now W L : Nat)
    (h : s.requestCount ≤ L) :
    ((incrementRequestCount s now W).2.1 = 1 ∨
      (incrementRequestCount s now W).2.1 = s.requestCount + 1) ∧
    (incrementRequestCount s now W).2.1 ≤ L + 1 := by
  unfold incrementRequestCount
  dsimp only
  split
  · exact ⟨Or.inl rfl, by omega⟩
  · exact ⟨Or.inr rfl, by omega⟩

/-- C1 (witness for the amended theorem), at a concrete session with 29
requests in the window and the default configuration. -/
theorem increment_count_step_witness :
    session29.requestCount ≤ 30 ∧
    (((incrementRequestCount session29 0 60).2.1 = 1 ∨
      (incrementRequestCount session29 0 60).2.1 = session29.requestCount + 1) ∧
      (incrementRequestCount session29 0 60).2.1 ≤ 30 + 1) :=
  ⟨by decide, increment_count_step session29 0 60 30 (by decide)⟩

/-- C6: for a valid session and a working increment, the request that
brings the in-window count to exactly `RATE_LIMIT_REQUESTS` passes the
gate (processing continues to the dispatcher), the request that brings
it to `RATE_LIMIT_REQUESTS + 1` is rejected with a `RATE_LIMITED`
envelope whose trace contains no upstream call, and the returned
`seconds_until_reset` lies in `[0, RATE_LIMIT_WINDOW]` (it is a natural
number, so only the upper bound is stated). -/
theorem rate_gate_boundary (env : Env) (s : Session) (q : String)
    (hs : env.session = some s)
    (hne : isExpired env.sessionTimeoutMinutes env.now s = false)
    (hnr : env.incrementRaises = false)
    (_hws : s.requestWindowStart ≤ env.now) :
    (incrementRequestCount s env.now env.rateLimitWindowSeconds).2.2 ≤
      env.rateLimitWindowSeconds ∧
    ((incrementRequestCount s env.now env.rateLimitWindowSeconds).2.1 =
        env.rateLimitRequests →
      processChat env q =
        ((dispatchAndRecord env s q).1,
          Effect.sessionWrite
              (incrementRequestCount s env.now env.rateLimitWindowSeconds).1 ::
            (dispatchAndRecord env s q).2)) ∧
    ((incrementRequestCount s env.now env.rateLimitWindowSeconds).2.1 =
        env.rateLimitRequests + 1 →
      (processChat env q).1.codeOf = some "RATE_LIMITED" ∧
      (processChat env q).2 =
        [Effect.sessionWrite
          (incrementRequestCount s env.now env.rateLimitWindowSeconds).1] ∧
      ∀ c, Effect.mcpCall c ∉ (processChat env q).2) := by
  refine ⟨?_, ?_, ?_⟩
  · unfold incrementRequestCount
    dsimp only
    exact Nat.sub_le _ _
  · intro h
    simp only [processChat, hs, hne, hnr, Bool.false_eq_true, if_false, h,
      Nat.lt_irrefl]
  · intro h
    have hcond : env.rateLimitRequests <
        (incrementRequestCount s env.now env.rateLimitWindowSeconds).2.1 := by
      omega
    refine ⟨?_, ?_, ?_⟩
    · simp only [processChat, hs, hne, hnr, Bool.false_eq_true, if_false,
        hcond, if_true, ChatOutcome.codeOf]
    · simp only [processChat, hs, hne, hnr, Bool.false_eq_true, if_false,
        hcond, if_true]
    · intro c
      simp only [processChat, hs, hne, hnr, Bool.false_eq_true, if_false,
        hcond, if_true, List.mem_singleton]
      intro hmem
      exact Effect.noConfusion hmem

/-- C6 (witness): with 29 requests already in the window and the default
configuration, this request brings the count to exactly 30 and is
allowed: `process_chat` proceeds to the dispatcher, and the reset delay
is within the window. -/
theorem rate_gate_boundary_witness :
    session29.requestWindowStart ≤ 0 ∧
    (incrementRequestCount session29 0 60).2.1 = 30 ∧
    (incrementRequestCount session29 0 60).2.2 ≤ 60 ∧
    processChat envAtLimit "price of AAPL" =
      ((dispatchAndRecord envAtLimit session29 "price of AAPL").1,
        Effect.sessionWrite (incrementRequestCount session29 0 60).1 ::
          (dispatchAndRecord envAtLimit session29 "price of AAPL").2) := by
  have h := rate_gate_boundary envAtLimit session29 "price of AAPL" rfl
    (by decide) rfl (by decide)
  exact ⟨by decide, by decide, h.1, h.2.1 (by decide)⟩

/-- C10: every call to the rate-limit increment overwrites the session's
`last_activity` with `now` (so any chat request, including an over-limit
one, resets the session-expiry clock: with a positive timeout the row is
not expired immediately after the write), and in `process_chat` the
updated row is written back before the limit comparison, hence also when
the request is rejected as rate-limited. -/
theorem increment_touches_activity :
    (∀ (s : Session) (now W : Nat),
      (incrementRequestCount s now W).1.lastActivity = now) ∧
    (∀ (s : Session) (now W T : Nat), 0 < T →
      isExpired T now (incrementRequestCount s now W).1 = false) ∧
    (∀ (env : Env) (s : Session) (q : String), env.session = some s →
      isExpired env.sessionTimeoutMinutes env.now s = false →
      env.incrementRaises = false →
      Effect.sessionWrite
          (incrementRequestCount s env.now env.rateLimitWindowSeconds).1 ∈
        (processChat env q).2) := by
  refine ⟨fun s now W => rfl, ?_, ?_⟩
  · intro s now W T hT
    have h1 : (incrementRequestCount s now W).1.lastActivity = now := rfl
    simp only [isExpired, h1, Nat.sub_self, MICROS, Nat.le_zero,
      decide_eq_false_iff_not]
    omega
  · intro env s q hs hne hnr
    simp only [processChat, hs, hne, hnr, Bool.false_eq_true, if_false]
    split
    · exact List.mem_singleton.mpr rfl
    · exact List.mem_cons_self _ _

/-- C10 (witness): the over-limit request of `envOverLimit` is rejected
as `RATE_LIMITED`, yet the session write with `last_activity = now`
appears in its trace, and the incremented row is not expired. -/
theorem increment_touches_activity_witness :
    isExpired 60 5 (incrementRequestCount session30 5 60).1 = false ∧
    (processChat envOverLimit "price of AAPL").1.codeOf =
      some "RATE_LIMITED" ∧
    Effect.sessionWrite (incrementRequestCount session30 0 60).1 ∈
      (processChat envOverLimit "price of AAPL").2 := by
  have h := increment_touches_activity
  exact ⟨h.2.1 session30 5 60 60 (by decide), by decide,
    h.2.2 envOverLimit session30 "price of AAPL" rfl (by decide) rfl⟩

/-- Rendering the fields of a JSON object is a per-field map. -/
theorem jsonDumpsFields_eq_map (l : List (String × Val)) :
    jsonDumpsFields l = l.map fun p => (p.1, jsonDumps p.2) := by
  induction l with
  | nil => rfl
  | cons h t ih => cases h; simp [jsonDumpsFields, ih]

/-- Insertion sort by first component sends key-nodup permutations of a
pair list to the same sorted list (the sort is by a linear order on the
keys, so with distinct keys the sorted order is unique). -/
theorem insertionSort_key_eq {β : Type} (l₁ l₂ : List (String × β))
    (hp : l₁.Perm l₂) (hnd : (l₁.map Prod.fst).Nodup) :
    l₁.insertionSort (fun a b => a.1 ≤ b.1) =
      l₂.insertionSort (fun a b => a.1 ≤ b.1) := by
  haveI : IsTotal (String × β) (fun a b => a.1 ≤ b.1) :=
    ⟨fun a b => le_total a.1 b.1⟩
  haveI : IsTrans (String × β) (fun a b => a.1 ≤ b.1) :=
    ⟨fun a b c h1 h2 => le_trans h1 h2⟩
  haveI : IsAntisymm (String × β) (fun a b => a.1 < b.1) :=
    ⟨fun a b h1 h2 => absurd (lt_trans h1 h2) (lt_irrefl _)⟩
  have hperm : (l₁.insertionSort (fun a b => a.1 ≤ b.1)).Perm
      (l₂.insertionSort (fun a b => a.1 ≤ b.1)) :=
    ((List.perm_insertionSort _ l₁).trans hp).trans
      (List.perm_insertionSort _ l₂).symm
  have hnd₂ : (l₂.map Prod.fst).Nodup := ((hp.map Prod.fst).nodup_iff).mp hnd
  have hstrict : ∀ (l : List (String × β)), (l.map Prod.fst).Nodup →
      (l.insertionSort (fun a b => a.1 ≤ b.1)).Sorted
        (fun a b => a.1 < b.1) := by
    intro l hl
    have hs : (l.insertionSort (fun a b => a.1 ≤ b.1)).Sorted
        (fun a b => a.1 ≤ b.1) := List.sorted_insertionSort _ l
    have hndl : ((l.insertionSort (fun a b => a.1 ≤ b.1)).map Prod.fst).Nodup :=
      (((List.perm_insertionSort
        (fun (a b : String × β) => a.1 ≤ b.1) l).map Prod.fst).nodup_iff).mpr hl
    have hne : (l.insertionSort (fun a b => a.1 ≤ b.1)).Pairwise
        (fun a b => a.1 ≠ b.1) := List.pairwise_map.mp hndl
    exact (hs.and hne).imp fun h => lt_of_le_of_ne h.1 h.2
  exact List.eq_of_perm_of_sorted hperm (hstrict l₁ hnd) (hstrict l₂ hnd₂)

/-- C9: the cache key is pure and deterministic. It equals the SHA-256
hex digest of the query type, a colon, and the canonical JSON of the
params (object keys sorted); hence two calls with the same type whose
param dicts hold the same key-value pairs (any insertion order, keys
distinct as in a dict) produce the same key and address the same slot. -/
theorem cache_key_deterministic (t : String) (p q : List (String × Val))
    (hp : p.Perm q) (hnd : (p.map Prod.fst).Nodup) :
    generateCacheKey t p =
      sha256Hex (utf8Bytes (t ++ ":" ++ jsonDumps (.vDict p))) ∧
    generateCacheKey t p = generateCacheKey t q := by
  refine ⟨rfl, ?_⟩
  have hmap : (jsonDumpsFields p).Perm (jsonDumpsFields q) := by
    rw [jsonDumpsFields_eq_map, jsonDumpsFields_eq_map]
    exact hp.map _
  have hkeys : ((jsonDumpsFields p).map Prod.fst).Nodup := by
    rw [jsonDumpsFields_eq_map]
    have : (p.map fun pr => (pr.1, jsonDumps pr.2)).map Prod.fst =
        p.map Prod.fst := by
      simp [List.map_map]
    rw [this]
    exact hnd
  have hsorted := insertionSort_key_eq (jsonDumpsFields p)
    (jsonDumpsFields q) hmap hkeys
  have hdump : jsonDumps (.vDict p) = jsonDumps (.vDict q) := by
    show "\x7b" ++ String.intercalate ", "
        (((jsonDumpsFields p).insertionSort fun a b => a.1 ≤ b.1).map
          fun pr => "\"" ++ escStr pr.1 ++ "\": " ++ pr.2) ++ "\x7d" = _
    rw [hsorted]
    rfl
  show sha256Hex (utf8Bytes (t ++ ":" ++ jsonDumps (.vDict p))) = _
  rw [hdump]
  rfl

/-- C9 (witness): the two insertion orders of the same historical-query
params produce the same cache key. -/
theorem cache_key_deterministic_witness :
    paramsAB.Perm paramsBA ∧ (paramsAB.map Prod.fst).Nodup ∧
    generateCacheKey "historical" paramsAB =
      generateCacheKey "historical" paramsBA := by
  have hperm : paramsAB.Perm paramsBA :=
    List.Perm.swap ("interval", Val.vStr "1day")
      ("symbol", Val.vStr "AAPL") []
  have hnd : (paramsAB.map Prod.fst).Nodup := by decide
  exact ⟨hperm, hnd,
    (cache_key_deterministic "historical" paramsAB paramsBA hperm hnd).2⟩

/-- C7: intent classification is the first-match-wins evaluation of the
seven rules in exactly the spec's order (commodities list, conversion,
indicator, historical phrases or the last-N-units regex, quote,
comparison, price as catch-all); in particular a query containing a
conversion phrase — and, per rule 1, no commodities phrase — is
classified `conversion` regardless of any indicator or historical
keywords it also contains. -/
theorem intent_rule_order (q : String) :
    detectIntent q = specFirstMatch q.data specIntentRules ∧
    (containsAny q.data conversionPhrases = true →
      containsAny q.data commoditiesPhrases = false →
      detectIntent q = .conversion) := by
  constructor
  · simp only [detectIntent, specIntentRules, specFirstMatch]
    split_ifs <;> simp_all
  · intro h1 h2
    simp [detectIntent, h1, h2]

/-- C7 (witness): a query holding a conversion phrase together with an
indicator keyword and a historical keyword is classified `conversion`. -/
theorem intent_rule_order_witness :
    containsAny ("convert the rsi history to usd".data) conversionPhrases
      = true ∧
    containsAny ("convert the rsi history to usd".data) commoditiesPhrases
      = false ∧
    detectIntent "convert the rsi history to usd" = .conversion :=
  ⟨by decide, by decide,
    (intent_rule_order "convert the rsi history to usd").2
      (by decide) (by decide)⟩

/-- The context walk returns the symbols of the first entry (scanning
left to right) whose symbol list is non-empty. -/
theorem walkCtx_append (l : List CtxEntry) (e : CtxEntry)
    (rest : List CtxEntry) (hl : ∀ x ∈ l, x.symbols = [])
    (he : e.symbols ≠ []) :
    walkCtx (l ++ e :: rest) = e.symbols := by
  induction l with
  | nil =>
    cases hse : e.symbols with
    | nil => exact absurd hse he
    | cons a t => simp [walkCtx, hse]
  | cons x xs ih =>
    have hx : x.symbols = [] := hl x (List.mem_cons_self x xs)
    simp only [List.cons_append, walkCtx, hx, List.isEmpty_nil, if_true]
    exact ih fun y hy => hl y (List.mem_cons_of_mem _ hy)

/-- C8: when a query's own symbol extraction is empty and the prior
context is non-empty, the interpreter adopts symbols from context only
if the query matches a follow-up pattern, in which case it walks the
context newest-first and returns the symbols of the first entry with a
non-empty symbol list; with no follow-up match the symbols stay empty. -/
theorem followup_resolution (q : String) (ctx : List CtxEntry)
    (hsym : extractSymbols q = []) (hctx : ctx ≠ []) :
    (isFollowUp (pyLower q) = false → (parse q ctx).symbols = []) ∧
    (∀ (pre post : List CtxEntry) (e : CtxEntry),
      ctx = pre ++ e :: post → e.symbols ≠ [] →
      (∀ x ∈ post, x.symbols = []) →
      isFollowUp (pyLower q) = true →
      (parse q ctx).symbols = e.symbols) := by
  have hbase : (parse q ctx).symbols =
      extractSymbolsFromContext (pyLower q) ctx := by
    cases ctx with
    | nil => exact absurd rfl hctx
    | cons a t => simp [parse, hsym]
  constructor
  · intro hf
    rw [hbase]
    simp [extractSymbolsFromContext, hf]
  · intro pre post e hdecomp he hpost hf
    rw [hbase]
    simp only [extractSymbolsFromContext, hf, if_true]
    rw [hdecomp, List.reverse_append, List.reverse_cons, List.append_assoc,
      List.singleton_append]
    exact walkCtx_append post.reverse e pre.reverse
      (fun x hx => hpost x (List.mem_reverse.mp hx)) he

/-- C8 (witness): "how about that too" extracts no symbols of its own,
matches the follow-up patterns, and adopts the gold symbol of the prior
turn. -/
theorem followup_resolution_witness :
    extractSymbols "how about that too" = [] ∧
    isFollowUp (pyLower "how about that too") = true ∧
    (parse "how about that too" ctxGold).symbols = ["XAU/USD"] := by
  have h := followup_resolution "how about that too" ctxGold
    (by decide) (by decide)
  exact ⟨by decide, by decide,
    h.2 [] []
      ⟨"price of gold", ["XAU/USD"], "price", none, "1day",
        "2026-01-01T00:00:00"⟩
      rfl (by decide) (by simp) (by decide)⟩

/-- C5 (counterexample): the claim that missing or unparsable numeric
fields become null fails on the code, in both formatters. A payload
whose price is the string "n/a" makes `_format_price_response` raise
(`float("n/a")`), and the request surfaces as a `PROCESSING_ERROR`
envelope rather than a null field; with the price field missing
entirely, the formatted price is `0`, not null. In
`_format_quote_response` the required fields are coerced by an
unguarded `float(data.get(key, 0))`: an unparsable open raises, and so
does a present but falsy open (`None`), since only a genuinely missing
field falls back to the default `0`. -/
theorem price_coercion_counterexample :
    formatPriceResponse "AAPL" badPriceData "t" "f" =
      .error ("could not convert string to float: " ++ sq "n/a") ∧
    (formatPriceResponse "AAPL" (.vDict []) "t" "f").toOption.map
      (fun r => dictGet r.data "price") = some (.vNum 0) ∧
    (processChat envBadPrice "price of AAPL").1.codeOf =
      some "PROCESSING_ERROR" ∧
    formatQuoteResponse "MSFT" (.vDict [("open", .vStr "n/a")]) "t" "f" =
      .error ("could not convert string to float: " ++ sq "n/a") ∧
    formatQuoteResponse "MSFT" (.vDict [("open", .vNull)]) "t" "f" =
      .error
        "float() argument must be a string or a real number, not NoneType" :=
  ⟨rfl, rfl, rfl, rfl, rfl⟩

/-- C5 (amended): numeric-field coercion differs between the two
formatters. `_format_price_response` uses a truthiness-guarded
`float()`: a truthy but unparsable price field raises (surfacing as
`PROCESSING_ERROR`), a missing or falsy price field becomes `0` (not
null) while the optional percent-change field does become null, and a
parsable price field passes through as the parsed value.
`_format_quote_response` coerces the required open/high/low/close
fields with an unguarded `float(data.get(key, 0))`: whenever that
coercion of the open field fails — a present falsy value such as
`None`, or an unparsable string — the formatter raises with exactly
that error; when the lookups with default `0` all yield `0` (in
particular when the fields are missing) and the optional fields
(volume, percent change, 52-week high/low) are falsy, it succeeds with
the required fields `0` and the optional fields null. -/
theorem price_format_coercion (symbol : String) (d : Val) (ts ft : String) :
    (pyTruthy (priceRawOf d) = true →
      (∀ x : ℚ, pyFloatE (priceRawOf d) ≠ .ok x) →
      ∃ m, formatPriceResponse symbol d ts ft = .error m) ∧
    (pyTruthy (priceRawOf d) = false → pyTruthy (changeRawOf d) = false →
      ∃ r, formatPriceResponse symbol d ts ft = .ok r ∧
        dictGet r.data "price" = .vNum 0 ∧
        dictGet r.data "change_percent" = .vNull) ∧
    (∀ x : ℚ, pyFloatE (priceRawOf d) = .ok x →
      pyTruthy (priceRawOf d) = true → pyTruthy (changeRawOf d) = false →
      ∃ r, formatPriceResponse symbol d ts ft = .ok r ∧
        dictGet r.data "price" = .vNum x ∧
        dictGet r.data "change_percent" = .vNull) ∧
    (∀ m, pyFloatE (dictGetD d "open" (.vNum 0)) = .error m →
      formatQuoteResponse symbol d ts ft = .error m) ∧
    (dictGetD d "open" (.vNum 0) = .vNum 0 →
      dictGetD d "high" (.vNum 0) = .vNum 0 →
      dictGetD d "low" (.vNum 0) = .vNum 0 →
      dictGetD d "close" (.vNum 0) = .vNum 0 →
      pyTruthy (dictGet d "volume") = false →
      pyTruthy (pyOr (dictGet d "change_percent")
        (dictGet d "percent_change")) = false →
      pyTruthy (pyOr (dictGet d "fifty_two_week_high")
        (dictGet d "52_week_high")) = false →
      pyTruthy (pyOr (dictGet d "fifty_two_week_low")
        (dictGet d "52_week_low")) = false →
      ∃ r, formatQuoteResponse symbol d ts ft = .ok r ∧
        dictGet r.data "open" = .vNum 0 ∧
        dictGet r.data "high" = .vNum 0 ∧
        dictGet r.data "low" = .vNum 0 ∧
        dictGet r.data "close" = .vNum 0 ∧
        dictGet r.data "volume" = .vNull ∧
        dictGet r.data "change_percent" = .vNull ∧
        dictGet r.data "fifty_two_week_high" = .vNull ∧
        dictGet r.data "fifty_two_week_low" = .vNull) := by
  refine ⟨?_, ?_, ?_, ?_, ?_⟩
  · intro h1 h2
    cases hE : pyFloatE (priceRawOf d) with
    | error m =>
      refine ⟨m, ?_⟩
      simp only [formatPriceResponse, h1, if_true, hE]
      rfl
    | ok x => exact absurd hE (h2 x)
  · intro h1 h2
    refine
      ⟨{ answer := "The current price of " ++ symbol ++ " is $" ++
            fmt2 0 ++ "."
         rtype := "price"
         data := .vDict [("symbol", .vStr symbol), ("price", .vNum 0),
           ("change_percent", .vNull)]
         timestamp := ts ++ "Z"
         formattedTime := ft }, ?_, rfl, rfl⟩
    simp only [formatPriceResponse, h1, h2]
    rfl
  · intro x hE h1 h2
    refine
      ⟨{ answer := "The current price of " ++ symbol ++ " is $" ++
            fmt2 x ++ "."
         rtype := "price"
         data := .vDict [("symbol", .vStr symbol), ("price", .vNum x),
           ("change_percent", .vNull)]
         timestamp := ts ++ "Z"
         formattedTime := ft }, ?_, rfl, rfl⟩
    simp only [formatPriceResponse, h1, h2, hE]
    rfl
  · intro m hE
    simp only [formatQuoteResponse, hE]
    rfl
  · intro ho hh hl hc hv hch hh52 hl52
    refine
      ⟨{ answer := "Here" ++ apos ++ "s the detailed quote for " ++
            symbol ++ ": Open: $" ++ fmt2 0 ++ ", High: $" ++ fmt2 0 ++
            ", Low: $" ++ fmt2 0 ++ ", Close: $" ++ fmt2 0
         rtype := "quote"
         data := .vDict [("symbol", .vStr symbol), ("open", .vNum 0),
           ("high", .vNum 0), ("low", .vNum 0), ("close", .vNum 0),
           ("volume", .vNull), ("change_percent", .vNull),
           ("fifty_two_week_high", .vNull), ("fifty_two_week_low", .vNull)]
         timestamp := ts ++ "Z"
         formattedTime := ft }, ?_, rfl, rfl, rfl, rfl, rfl, rfl, rfl, rfl⟩
    simp only [formatQuoteResponse, ho, hh, hl, hc, hv, hch, hh52, hl52]
    rfl

/-- C5 (witness for the amended theorem): a payload with a parsable
string price formats to that value with a null percent change, and an
empty quote payload formats with the four required fields `0` and the
optional fields null. -/
theorem price_format_coercion_witness :
    (pyFloatE (priceRawOf (.vDict [("price", .vStr "12.5")])) =
      .ok (25 / 2 : ℚ) ∧
    ∃ r, formatPriceResponse "AAPL" (.vDict [("price", .vStr "12.5")])
        "t" "f" = .ok r ∧
      dictGet r.data "price" = .vNum (25 / 2 : ℚ) ∧
      dictGet r.data "change_percent" = .vNull) ∧
    ∃ r, formatQuoteResponse "MSFT" (.vDict []) "t" "f" = .ok r ∧
      dictGet r.data "open" = .vNum 0 ∧
      dictGet r.data "high" = .vNum 0 ∧
      dictGet r.data "low" = .vNum 0 ∧
      dictGet r.data "close" = .vNum 0 ∧
      dictGet r.data "volume" = .vNull ∧
      dictGet r.data "change_percent" = .vNull ∧
      dictGet r.data "fifty_two_week_high" = .vNull ∧
      dictGet r.data "fifty_two_week_low" = .vNull := by
  have h := price_format_coercion "AAPL" (.vDict [("price", .vStr "12.5")])
    "t" "f"
  have h2 := price_format_coercion "MSFT" (.vDict []) "t" "f"
  exact ⟨⟨by decide,
      h.2.2.1 (25 / 2 : ℚ) (by decide) (by decide) (by decide)⟩,
    h2.2.2.2.2 rfl rfl rfl rfl (by decide) (by decide) (by decide)
      (by decide)⟩

/-- C4 (counterexample): the conversion handler does not follow the
common cache pattern. Even with a fresh `conversion` cache entry
available for every params dict, the conversion request's trace is just
the session write and the upstream call: no `cache.get` before the call
and no `cache.set` after the success. -/
theorem conversion_cache_counterexample :
    envConvCached.cache "conversion" [] = some convCacheEntry ∧
    (processChat envConvCached "convert 100 usd to eur").1.isOk = true ∧
    (processChat envConvCached "convert 100 usd to eur").2 =
      [Effect.sessionWrite ⟨0, 0, [], 1, 0⟩,
        Effect.mcpCall (.convertCurrency "USD" "EUR" 100)] :=
  ⟨rfl, rfl, rfl⟩

/-- C4 (amended): the conversion handler, unlike the other intents,
never consults or writes the cache: it validates the currencies, calls
upstream exactly once, returns an `MCP_ERROR` envelope on failure (with
no stale fallback) and formats the result on success without caching. -/
theorem conversion_skips_cache (env : Env) (parsed : ParsedQuery)
    (hi : parsed.intent = .conversion) :
    (∀ t p b, Effect.cacheGet t p b ∉ (handleIntent env parsed).1) ∧
    (∀ t p, Effect.cacheSet t p ∉ (handleIntent env parsed).1) ∧
    (∀ f tc, parsed.fromCurrency = some f → parsed.toCurrency = some tc →
      ∃ a, (handleIntent env parsed).1 =
          [Effect.mcpCall (.convertCurrency f tc a)] ∧
        ((env.mcp (.convertCurrency f tc a)).success = false →
          ∃ ans, (handleIntent env parsed).2 =
            .ok (.err ans "MCP_ERROR"
              (env.mcp (.convertCurrency f tc a)).error))) := by
  have hh : handleIntent env parsed = handleConversionQuery env parsed := by
    simp [handleIntent, hi]
  rw [hh]
  unfold handleConversionQuery
  cases hfc : parsed.fromCurrency with
  | none =>
    refine ⟨?_, ?_, ?_⟩
    · intro t p b
      simp
    · intro t p
      simp
    · intro f tc hf htc
      exact Option.noConfusion hf
  | some f0 =>
    cases htc : parsed.toCurrency with
    | none =>
      refine ⟨?_, ?_, ?_⟩
      · intro t p b
        simp
      · intro t p
        simp
      · intro f tc hf htc2
        exact Option.noConfusion htc2
    | some t0 =>
      refine ⟨?_, ?_, ?_⟩
      · intro t p b
        dsimp only
        split <;> simp
      · intro t p
        dsimp only
        split <;> simp
      · intro f tc hf htc2
        obtain rfl : f0 = f := Option.some.inj hf
        obtain rfl : t0 = tc := Option.some.inj htc2
        refine ⟨(match parsed.amount with
          | some a => if a = 0 then 1 else a
          | none => 1), ?_, ?_⟩
        · dsimp only
          split <;> rfl
        · intro hfail
          dsimp only
          simp only [hfail, Bool.not_false, if_true]
          exact ⟨_, rfl⟩

/-- C4 (witness for the amended theorem): a concrete conversion query
against the failing upstream performs no cache effect, calls the
upstream once, and yields the `MCP_ERROR` envelope. -/
theorem conversion_skips_cache_witness :
    Effect.cacheGet "conversion" [("from", Val.vStr "USD")] false ∉
      (handleIntent baseEnv (parse "convert 100 usd to eur" [])).1 ∧
    Effect.cacheSet "conversion" [("from", Val.vStr "USD")] ∉
      (handleIntent baseEnv (parse "convert 100 usd to eur" [])).1 ∧
    ∃ a, (handleIntent baseEnv (parse "convert 100 usd to eur" [])).1 =
        [Effect.mcpCall (.convertCurrency "USD" "EUR" a)] ∧
      ((baseEnv.mcp (.convertCurrency "USD" "EUR" a)).success = false →
        ∃ ans, (handleIntent baseEnv (parse "convert 100 usd to eur" [])).2 =
          .ok (.err ans "MCP_ERROR"
            (baseEnv.mcp (.convertCurrency "USD" "EUR" a)).error)) := by
  have h := conversion_skips_cache baseEnv
    (parse "convert 100 usd to eur" []) (by decide)
  exact ⟨h.1 _ _ _, h.2.1 _ _, h.2.2 "USD" "EUR" (by decide) (by decide)⟩

/-- A lifted formatter result is never an error envelope. -/
theorem liftFmt_ne_err (x : Except String ChatResp) (a c m : String) :
    liftFmt x ≠ .ok (.err a c m) := by
  cases x <;> simp [liftFmt]

/-- A lifted, answer-prefixed formatter result is never an error
envelope. -/
theorem liftFmtWarn_ne_err (pre : String) (x : Except String ChatResp)
    (a c m : String) : liftFmtWarn pre x ≠ .ok (.err a c m) := by
  cases x <;> simp [liftFmtWarn]

/-- The price handler only emits `NO_SYMBOL` or `MCP_ERROR` envelopes. -/
theorem handlePrice_err_code (env : Env) (parsed : ParsedQuery)
    (a c m : String)
    (h : (handlePriceQuery env parsed).2 = .ok (.err a c m)) :
    c = "NO_SYMBOL" ∨ c = "MCP_ERROR" := by
  unfold handlePriceQuery at h
  dsimp only at h
  repeat' split at h
  all_goals first
    | exact absurd h (liftFmt_ne_err _ _ _ _)
    | exact absurd h (liftFmtWarn_ne_err _ _ _ _ _)
    | (simp only [Except.ok.injEq, ChatOutcome.err.injEq] at h
       exact Or.inl h.2.1.symm)
    | (simp only [Except.ok.injEq, ChatOutcome.err.injEq] at h
       exact Or.inr h.2.1.symm)

/-- The quote handler only emits `NO_SYMBOL` or `MCP_ERROR` envelopes. -/
theorem handleQuote_err_code (env : Env) (parsed : ParsedQuery)
    (a c m : String)
    (h : (handleQuoteQuery env parsed).2 = .ok (.err a c m)) :
    c = "NO_SYMBOL" ∨ c = "MCP_ERROR" := by
  unfold handleQuoteQuery at h
  dsimp only at h
  repeat' split at h
  all_goals first
    | exact absurd h (liftFmt_ne_err _ _ _ _)
    | exact absurd h (liftFmtWarn_ne_err _ _ _ _ _)
    | (simp only [Except.ok.injEq, ChatOutcome.err.injEq] at h
       exact Or.inl h.2.1.symm)
    | (simp only [Except.ok.injEq, ChatOutcome.err.injEq] at h
       exact Or.inr h.2.1.symm)

/-- The historical handler only emits `NO_SYMBOL` or `MCP_ERROR`
envelopes. -/
theorem handleHistorical_err_code (env : Env) (parsed : ParsedQuery)
    (a c m : String)
    (h : (handleHistoricalQuery env parsed).2 = .ok (.err a c m)) :
    c = "NO_SYMBOL" ∨ c = "MCP_ERROR" := by
  unfold handleHistoricalQuery at h
  dsimp only at h
  repeat' split at h
  all_goals first
    | exact absurd h (liftFmt_ne_err _ _ _ _)
    | exact absurd h (liftFmtWarn_ne_err _ _ _ _ _)
    | (simp only [Except.ok.injEq, ChatOutcome.err.injEq] at h
       exact Or.inl h.2.1.symm)
    | (simp only [Except.ok.injEq, ChatOutcome.err.injEq] at h
       exact Or.inr h.2.1.symm)

/-- The indicator handler only emits `NO_SYMBOL`, `NO_INDICATOR` or
`MCP_ERROR` envelopes. -/
theorem handleIndicator_err_code (env : Env) (parsed : ParsedQuery)
    (a c m : String)
    (h : (handleIndicatorQuery env parsed).2 = .ok (.err a c m)) :
    c = "NO_SYMBOL" ∨ c = "NO_INDICATOR" ∨ c = "MCP_ERROR" := by
  unfold handleIndicatorQuery at h
  dsimp only at h
  repeat' split at h
  all_goals first
    | exact absurd h (liftFmt_ne_err _ _ _ _)
    | exact absurd h (liftFmtWarn_ne_err _ _ _ _ _)
    | (simp only [Except.ok.injEq, ChatOutcome.err.injEq] at h
       exact Or.inl h.2.1.symm)
    | (simp only [Except.ok.injEq, ChatOutcome.err.injEq] at h
       exact Or.inr (Or.inl h.2.1.symm))
    | (simp only [Except.ok.injEq, ChatOutcome.err.injEq] at h
       exact Or.inr (Or.inr h.2.1.symm))

/-- The conversion handler only emits `MISSING_CURRENCIES` or
`MCP_ERROR` envelopes. -/
theorem handleConversion_err_code (env : Env) (parsed : ParsedQuery)
    (a c m : String)
    (h : (handleConversionQuery env parsed).2 = .ok (.err a c m)) :
    c = "MISSING_CURRENCIES" ∨ c = "MCP_ERROR" := by
  unfold handleConversionQuery at h
  dsimp only at h
  repeat' split at h
  all_goals first
    | exact absurd h (liftFmt_ne_err _ _ _ _)
    | (simp only [Except.ok.injEq, ChatOutcome.err.injEq] at h
       exact Or.inl h.2.1.symm)
    | (simp only [Except.ok.injEq, ChatOutcome.err.injEq] at h
       exact Or.inr h.2.1.symm)

/-- The commodities handler never emits an error envelope (it always
answers, with the static fallback list if need be, or raises). -/
theorem handleCommodities_no_err (env : Env) (a c m : String)
    (h : (handleCommoditiesList env).2 = .ok (.err a c m)) : False := by
  unfold handleCommoditiesList at h
  dsimp only at h
  repeat' split at h
  all_goals simp at h

/-- Any error envelope produced by the intent dispatch carries one of
the four handler error codes. -/
theorem handleIntent_err_code (env : Env) (parsed : ParsedQuery)
    (a c m : String)
    (h : (handleIntent env parsed).2 = .ok (.err a c m)) :
    c = "NO_SYMBOL" ∨ c = "NO_INDICATOR" ∨ c = "MISSING_CURRENCIES" ∨
      c = "MCP_ERROR" := by
  cases hi : parsed.intent <;> simp only [handleIntent, hi] at h
  case price =>
    rcases handlePrice_err_code env parsed a c m h with h' | h' <;> tauto
  case quote =>
    rcases handleQuote_err_code env parsed a c m h with h' | h' <;> tauto
  case historical =>
    rcases handleHistorical_err_code env parsed a c m h with h' | h' <;> tauto
  case indicator =>
    rcases handleIndicator_err_code env parsed a c m h with h' | h' | h' <;>
      tauto
  case conversion =>
    rcases handleConversion_err_code env parsed a c m h with h' | h' <;> tauto
  case commoditiesList =>
    exact absurd h fun hh => handleCommodities_no_err env a c m hh
  case comparison =>
    rcases handlePrice_err_code env parsed a c m h with h' | h' <;> tauto
  case unknown =>
    rcases handlePrice_err_code env parsed a c m h with h' | h' <;> tauto

/-- The dispatcher's outcome code is `none` (success) or one of
`PROCESSING_ERROR` and the four handler error codes: in particular it is
never `RATE_LIMITED` or `INTERNAL_ERROR`. -/
theorem dispatch_code (env : Env) (s : Session) (q : String) :
    (dispatchAndRecord env s q).1.codeOf = none ∨
    (dispatchAndRecord env s q).1.codeOf = some "PROCESSING_ERROR" ∨
    (dispatchAndRecord env s q).1.codeOf = some "NO_SYMBOL" ∨
    (dispatchAndRecord env s q).1.codeOf = some "NO_INDICATOR" ∨
    (dispatchAndRecord env s q).1.codeOf = some "MISSING_CURRENCIES" ∨
    (dispatchAndRecord env s q).1.codeOf = some "MCP_ERROR" := by
  unfold dispatchAndRecord
  cases hr : (handleIntent env (parse q s.context)).2 with
  | error m =>
    simp [hr, ChatOutcome.codeOf]
  | ok o =>
    cases o with
    | ok r =>
      simp only [hr]
      split <;> simp [ChatOutcome.codeOf]
    | err a c m =>
      simp only [hr]
      rcases handleIntent_err_code env (parse q s.context) a c m hr with
        h' | h' | h' | h' <;> simp [ChatOutcome.codeOf, h']

/-- C3 (counterexample): the claim that a store failure surfaces as
`INTERNAL_ERROR` and stops the request fails on the code. With the
rate-limit increment raising, `process_chat` logs, continues, performs
the cache read, the upstream call and the cache write, and returns a
success response — no `INTERNAL_ERROR` envelope. -/
theorem internal_error_counterexample :
    envIncRaises.incrementRaises = true ∧
    (processChat envIncRaises "list commodities").1.isOk = true ∧
    (processChat envIncRaises "list commodities").2 =
      [Effect.cacheGet "commodities"
          [("type", Val.vStr "commodities_list")] false,
        Effect.mcpCall .listCommodities,
        Effect.cacheSet "commodities"
          [("type", Val.vStr "commodities_list")]] :=
  ⟨rfl, rfl, rfl⟩

/-- C3 (amended): a store failure in the rate-limit increment is caught
and logged by the gate, which continues processing the request with the
rate limit unenforced: the result is exactly the dispatcher's result,
and is never a `RATE_LIMITED` or `INTERNAL_ERROR` envelope
(`INTERNAL_ERROR` exists only in the HTTP route's catch-all; store
failures inside intent handling surface as `PROCESSING_ERROR`). -/
theorem rate_limit_failure_swallowed (env : Env) (s : Session) (q : String)
    (hs : env.session = some s)
    (hne : isExpired env.sessionTimeoutMinutes env.now s = false)
    (hr : env.incrementRaises = true) :
    processChat env q = dispatchAndRecord env s q ∧
    (processChat env q).1.codeOf ≠ some "RATE_LIMITED" ∧
    (processChat env q).1.codeOf ≠ some "INTERNAL_ERROR" := by
  have heq : processChat env q = dispatchAndRecord env s q := by
    simp [processChat, hs, hne, hr]
  refine ⟨heq, ?_, ?_⟩ <;> rw [heq] <;>
    rcases dispatch_code env s q with h | h | h | h | h | h <;> simp [h]

/-- C3 (witness for the amended theorem): with the increment raising and
the upstream failing, the request continues through the price handler
and comes back as `MCP_ERROR`, not `INTERNAL_ERROR`, not `RATE_LIMITED`. -/
theorem rate_limit_failure_swallowed_witness :
    processChat envIncRaisesFail "price of gold" =
      dispatchAndRecord envIncRaisesFail sessionFresh "price of gold" ∧
    (processChat envIncRaisesFail "price of gold").1.codeOf ≠
      some "RATE_LIMITED" ∧
    (processChat envIncRaisesFail "price of gold").1.codeOf =
      some "MCP_ERROR" := by
  have h := rate_limit_failure_swallowed envIncRaisesFail sessionFresh
    "price of gold" rfl (by decide) rfl
  exact ⟨h.1, h.2.1, rfl⟩

/-- With an empty cache and a failing upstream, the price handler
returns `NO_SYMBOL` or an `MCP_ERROR` envelope carrying the upstream
message. -/
theorem handlePrice_total_fail (env : Env) (parsed : ParsedQuery)
    (m : String) (hcache : ∀ t p, env.cache t p = none)
    (hmcp : ∀ c, env.mcp c = ⟨false, .vNull, m⟩) :
    (∃ ans msg, (handlePriceQuery env parsed).2 =
      .ok (.err ans "NO_SYMBOL" msg)) ∨
    (∃ ans, (handlePriceQuery env parsed).2 =
      .ok (.err ans "MCP_ERROR" m)) := by
  by_cases h0 : parsed.symbols.isEmpty = true
  · left
    refine ⟨"I couldn" ++ apos ++
      "t identify a trading symbol in your query. Please specify a symbol like " ++
      sq "gold" ++ ", " ++ sq "AAPL" ++ ", or " ++ sq "EUR/USD" ++ ".",
      "No trading symbol found in query", ?_⟩
    simp [handlePriceQuery, h0]
  · right
    refine ⟨"Sorry, I couldn" ++ apos ++ "t get the price for " ++
      parsed.symbols.headD "" ++ ". " ++ m, ?_⟩
    unfold handlePriceQuery
    simp [h0, hcache, hmcp, cacheGetFresh, cacheGetStale, freshHit, staleHit]

/-- With an empty cache and a failing upstream, the quote handler
returns `NO_SYMBOL` or an `MCP_ERROR` envelope carrying the upstream
message. -/
theorem handleQuote_total_fail (env : Env) (parsed : ParsedQuery)
    (m : String) (hcache : ∀ t p, env.cache t p = none)
    (hmcp : ∀ c, env.mcp c = ⟨false, .vNull, m⟩) :
    (∃ ans msg, (handleQuoteQuery env parsed).2 =
      .ok (.err ans "NO_SYMBOL" msg)) ∨
    (∃ ans, (handleQuoteQuery env parsed).2 =
      .ok (.err ans "MCP_ERROR" m)) := by
  by_cases h0 : parsed.symbols.isEmpty = true
  · left
    refine ⟨"I couldn" ++ apos ++
      "t identify a trading symbol. Please specify a symbol like " ++
      sq "AAPL" ++ " or " ++ sq "EUR/USD" ++ ".",
      "No trading symbol found in query", ?_⟩
    simp [handleQuoteQuery, h0]
  · right
    refine ⟨"Sorry, I couldn" ++ apos ++ "t get quote data for " ++
      parsed.symbols.headD "" ++ ". " ++ m, ?_⟩
    unfold handleQuoteQuery
    simp [h0, hcache, hmcp, cacheGetFresh, cacheGetStale, freshHit, staleHit]

/-- With an empty cache and a failing upstream, the historical handler
returns `NO_SYMBOL` or an `MCP_ERROR` envelope carrying the upstream
message. -/
theorem handleHistorical_total_fail (env : Env) (parsed : ParsedQuery)
    (m : String) (hcache : ∀ t p, env.cache t p = none)
    (hmcp : ∀ c, env.mcp c = ⟨false, .vNull, m⟩) :
    (∃ ans msg, (handleHistoricalQuery env parsed).2 =
      .ok (.err ans "NO_SYMBOL" msg)) ∨
    (∃ ans, (handleHistoricalQuery env parsed).2 =
      .ok (.err ans "MCP_ERROR" m)) := by
  by_cases h0 : parsed.symbols.isEmpty = true
  · left
    refine ⟨"Please specify a symbol to get historical data for.",
      "No trading symbol found in query", ?_⟩
    simp [handleHistoricalQuery, h0]
  · right
    refine ⟨"Sorry, I couldn" ++ apos ++ "t get historical data for " ++
      parsed.symbols.headD "" ++ ". " ++ m, ?_⟩
    unfold handleHistoricalQuery
    simp [h0, hcache, hmcp, cacheGetFresh, cacheGetStale, freshHit, staleHit]

/-- With an empty cache and a failing upstream, the indicator handler
returns `NO_SYMBOL`, `NO_INDICATOR` or an `MCP_ERROR` envelope carrying
the upstream message. -/
theorem handleIndicator_total_fail (env : Env) (parsed : ParsedQuery)
    (m : String) (hcache : ∀ t p, env.cache t p = none)
    (hmcp : ∀ c, env.mcp c = ⟨false, .vNull, m⟩) :
    (∃ ans msg, (handleIndicatorQuery env parsed).2 =
      .ok (.err ans "NO_SYMBOL" msg)) ∨
    (∃ ans msg, (handleIndicatorQuery env parsed).2 =
      .ok (.err ans "NO_INDICATOR" msg)) ∨
    (∃ ans, (handleIndicatorQuery env parsed).2 =
      .ok (.err ans "MCP_ERROR" m)) := by
  by_cases h0 : parsed.symbols.isEmpty = true
  · left
    refine ⟨"Please specify a symbol to calculate the indicator for.",
      "No trading symbol found in query", ?_⟩
    simp [handleIndicatorQuery, h0]
  · cases hind : parsed.indicator with
    | none =>
      right; left
      refine ⟨"Please specify which indicator you want (e.g., RSI, SMA, MACD).",
        "No indicator specified in query", ?_⟩
      simp [handleIndicatorQuery, h0, hind]
    | some ind =>
      right; right
      refine ⟨"Sorry, I couldn" ++ apos ++ "t calculate " ++ pyUpper ind ++
        " for " ++ parsed.symbols.headD "" ++ ". " ++ m, ?_⟩
      unfold handleIndicatorQuery
      simp [h0, hind, hcache, hmcp, cacheGetFresh, cacheGetStale,
        freshHit, staleHit]

/-- With a failing upstream, the conversion handler returns
`MISSING_CURRENCIES` or an `MCP_ERROR` envelope carrying the upstream
message (it never touches the cache). -/
theorem handleConversion_total_fail (env : Env) (parsed : ParsedQuery)
    (m : String) (hmcp : ∀ c, env.mcp c = ⟨false, .vNull, m⟩) :
    (∃ ans msg, (handleConversionQuery env parsed).2 =
      .ok (.err ans "MISSING_CURRENCIES" msg)) ∨
    (∃ ans, (handleConversionQuery env parsed).2 =
      .ok (.err ans "MCP_ERROR" m)) := by
  unfold handleConversionQuery
  cases hfc : parsed.fromCurrency with
  | none => exact Or.inl ⟨_, _, rfl⟩
  | some f0 =>
    cases htc : parsed.toCurrency with
    | none => exact Or.inl ⟨_, _, rfl⟩
    | some t0 =>
      right
      refine ⟨"Sorry, I couldn" ++ apos ++ "t convert " ++ f0 ++ " to " ++
        t0 ++ ". " ++ m, ?_⟩
      simp [hmcp]

/-- Combined: with an empty cache and a failing upstream, the dispatch
of any non-commodities intent yields a missing-entity envelope or an
`MCP_ERROR` envelope carrying the upstream message. -/
theorem handleIntent_total_fail (env : Env) (parsed : ParsedQuery)
    (m : String) (hcache : ∀ t p, env.cache t p = none)
    (hmcp : ∀ c, env.mcp c = ⟨false, .vNull, m⟩)
    (hint : parsed.intent ≠ .commoditiesList) :
    (∃ ans c msg, (handleIntent env parsed).2 = .ok (.err ans c msg) ∧
      (c = "NO_SYMBOL" ∨ c = "NO_INDICATOR" ∨ c = "MISSING_CURRENCIES")) ∨
    (∃ ans, (handleIntent env parsed).2 = .ok (.err ans "MCP_ERROR" m)) := by
  cases hi : parsed.intent <;> simp only [handleIntent, hi]
  case commoditiesList => exact absurd hi hint
  case price =>
    rcases handlePrice_total_fail env parsed m hcache hmcp with
      ⟨ans, msg, he⟩ | ⟨ans, he⟩
    · exact Or.inl ⟨ans, _, msg, he, Or.inl rfl⟩
    · exact Or.inr ⟨ans, he⟩
  case quote =>
    rcases handleQuote_total_fail env parsed m hcache hmcp with
      ⟨ans, msg, he⟩ | ⟨ans, he⟩
    · exact Or.inl ⟨ans, _, msg, he, Or.inl rfl⟩
    · exact Or.inr ⟨ans, he⟩
  case historical =>
    rcases handleHistorical_total_fail env parsed m hcache hmcp with
      ⟨ans, msg, he⟩ | ⟨ans, he⟩
    · exact Or.inl ⟨ans, _, msg, he, Or.inl rfl⟩
    · exact Or.inr ⟨ans, he⟩
  case indicator =>
    rcases handleIndicator_total_fail env parsed m hcache hmcp with
      ⟨ans, msg, he⟩ | ⟨ans, msg, he⟩ | ⟨ans, he⟩
    · exact Or.inl ⟨ans, _, msg, he, Or.inl rfl⟩
    · exact Or.inl ⟨ans, _, msg, he, Or.inr (Or.inl rfl)⟩
    · exact Or.inr ⟨ans, he⟩
  case conversion =>
    rcases handleConversion_total_fail env parsed m hmcp with
      ⟨ans, msg, he⟩ | ⟨ans, he⟩
    · exact Or.inl ⟨ans, _, msg, he, Or.inr (Or.inr rfl)⟩
    · exact Or.inr ⟨ans, he⟩
  case comparison =>
    rcases handlePrice_total_fail env parsed m hcache hmcp with
      ⟨ans, msg, he⟩ | ⟨ans, he⟩
    · exact Or.inl ⟨ans, _, msg, he, Or.inl rfl⟩
    · exact Or.inr ⟨ans, he⟩
  case unknown =>
    rcases handlePrice_total_fail env parsed m hcache hmcp with
      ⟨ans, msg, he⟩ | ⟨ans, he⟩
    · exact Or.inl ⟨ans, _, msg, he, Or.inl rfl⟩
    · exact Or.inr ⟨ans, he⟩

/-- An error envelope from the dispatch becomes the request's outcome
unchanged. -/
theorem dispatch_of_err (env : Env) (s : Session) (q : String)
    (a c m : String)
    (h : (handleIntent env (parse q s.context)).2 = .ok (.err a c m)) :
    (dispatchAndRecord env s q).1 = .err a c m := by
  unfold dispatchAndRecord
  simp [h]

/-- C2 (counterexample): the claim fails for the commodities-list
intent. With an empty cache and a failing upstream, `process_chat`
returns a success response (built from the static `KNOWN_COMMODITIES`
list), not an `MCP_ERROR` envelope. -/
theorem commodities_fallback_counterexample :
    baseEnv.cache "commodities" [("type", Val.vStr "commodities_list")] =
      none ∧
    (baseEnv.mcp .listCommodities).success = false ∧
    (processChat baseEnv "list commodities").1.isOk = true ∧
    (processChat baseEnv "list commodities").1.codeOf ≠ some "MCP_ERROR" :=
  ⟨rfl, rfl, rfl, by decide⟩

/-- C2 (amended): for every intent except `commodities_list`, when the
upstream fails and no cache entry (fresh or stale) exists,
`process_chat` returns an error envelope — `MCP_ERROR` carrying the
upstream message once the required entities were present, else the
corresponding missing-entity error — and never a success response;
`commodities_list` instead substitutes a success response from the
static `KNOWN_COMMODITIES` list. -/
theorem upstream_failure_envelope (env : Env) (s : Session) (q m : String)
    (hs : env.session = some s)
    (hne : isExpired env.sessionTimeoutMinutes env.now s = false)
    (hnr : env.incrementRaises = false)
    (hcount : (incrementRequestCount s env.now
      env.rateLimitWindowSeconds).2.1 ≤ env.rateLimitRequests)
    (hcache : ∀ t p, env.cache t p = none)
    (hmcp : ∀ c, env.mcp c = ⟨false, .vNull, m⟩)
    (hint : (parse q s.context).intent ≠ .commoditiesList) :
    ((processChat env q).1.codeOf = some "MCP_ERROR" ∧
      (processChat env q).1.msgOf = some m) ∨
    (processChat env q).1.codeOf = some "NO_SYMBOL" ∨
    (processChat env q).1.codeOf = some "NO_INDICATOR" ∨
    (processChat env q).1.codeOf = some "MISSING_CURRENCIES" := by
  have hgate : (processChat env q).1 = (dispatchAndRecord env s q).1 := by
    simp [processChat, hs, hne, hnr, Nat.not_lt.mpr hcount]
  rw [hgate]
  rcases handleIntent_total_fail env (parse q s.context) m hcache hmcp hint
    with ⟨ans, c, msg, he, hc⟩ | ⟨ans, he⟩
  · rw [dispatch_of_err env s q ans c msg he]
    rcases hc with rfl | rfl | rfl
    · exact Or.inr (Or.inl rfl)
    · exact Or.inr (Or.inr (Or.inl rfl))
    · exact Or.inr (Or.inr (Or.inr rfl))
  · rw [dispatch_of_err env s q ans "MCP_ERROR" m he]
    exact Or.inl ⟨rfl, rfl⟩

/-- C2 (witness for the amended theorem): a plain price query against
the failing upstream and empty cache. -/
theorem upstream_failure_envelope_witness :
    ((processChat baseEnv "price of AAPL").1.codeOf = some "MCP_ERROR" ∧
      (processChat baseEnv "price of AAPL").1.msgOf =
        some "upstream request timed out") ∨
    (processChat baseEnv "price of AAPL").1.codeOf = some "NO_SYMBOL" ∨
    (processChat baseEnv "price of AAPL").1.codeOf = some "NO_INDICATOR" ∨
    (processChat baseEnv "price of AAPL").1.codeOf =
      some "MISSING_CURRENCIES" :=
  upstream_failure_envelope baseEnv sessionFresh "price of AAPL"
    "upstream request timed out" rfl (by decide) rfl (by decide)
    (fun t p => rfl) (fun c => rfl) (by decide)

end ChatTwelve





